import Mathlib

/-!
Verification of the Heartline companion application.

This file gives a shallow embedding, in Lean 4, of the parts of the
repository that the verified properties talk about:

- `security.py`: constant-time digest comparison, password verification,
  reversible text encryption with its XOR fallback cipher;
- `db.py`: the check-in fetch query (ordering and row cap);
- `app.py`: calendar-event form validation, event-task and personal-task
  completion linkage, the weekly digest summarizer, the "today three"
  slot-filling algorithm, personal-task creation flows, and the
  timeline-drag time clamping.

Python byte strings are modelled as `List Nat` with every element below
256; Python text strings carrying structured data are modelled at the
byte level as well, while user-facing labels use Lean `String`.
External primitives that the repository only calls (the standard-library
base64 codec, SHA-256, PBKDF2) are implemented here from their public
specifications, as noted in the doc comment of each such definition.
-/

/-! ## Base64

Modelled from the spec: the repository calls the Python standard-library
`base64` module (`urlsafe_b64encode`, `urlsafe_b64decode`, `b64encode`,
`b64decode`), which implements RFC 4648 base64 with the standard and the
url-safe alphabets. Bytes are grouped in threes into four 6-bit values
mapped through the alphabet; a final group of one or two bytes is padded
with one or two `=` characters (byte 61). Decoding inverts this and
fails (`none`, a `binascii.Error` in Python) on malformed input.
-/

/-- The RFC 4648 standard base64 alphabet, as ASCII byte values. -/
def b64StdAlphabet : List Nat :=
  [65, 66, 67, 68, 69, 70, 71, 72, 73, 74, 75, 76, 77, 78, 79, 80, 81, 82,
   83, 84, 85, 86, 87, 88, 89, 90, 97, 98, 99, 100, 101, 102, 103, 104, 105,
   106, 107, 108, 109, 110, 111, 112, 113, 114, 115, 116, 117, 118, 119, 120,
   121, 122, 48, 49, 50, 51, 52, 53, 54, 55, 56, 57, 43, 47]

/-- The RFC 4648 url-safe base64 alphabet: as the standard one, with `-`
(45) and `_` (95) replacing `+` (43) and `/` (47). -/
def b64UrlAlphabet : List Nat :=
  [65, 66, 67, 68, 69, 70, 71, 72, 73, 74, 75, 76, 77, 78, 79, 80, 81, 82,
   83, 84, 85, 86, 87, 88, 89, 90, 97, 98, 99, 100, 101, 102, 103, 104, 105,
   106, 107, 108, 109, 110, 111, 112, 113, 114, 115, 116, 117, 118, 119, 120,
   121, 122, 48, 49, 50, 51, 52, 53, 54, 55, 56, 57, 45, 95]

/-- The alphabet character encoding a 6-bit value. -/
def b64Char (alpha : List Nat) (v : Nat) : Nat := alpha.getD v 0

/-- The 6-bit value of an alphabet character, `none` for a byte outside
the alphabet. -/
def b64Value (alpha : List Nat) (c : Nat) : Option Nat :=
  alpha.findIdx? (fun x => x == c)

/-- Base64 encoding of a byte list: three bytes become four alphabet
characters; a trailing group of one or two bytes is completed with `=`
padding (byte 61). -/
def b64EncodeGroups (alpha : List Nat) : List Nat → List Nat
  | [] => []
  | [b0] =>
    [b64Char alpha (b0 * 65536 / 262144), b64Char alpha (b0 * 65536 / 4096 % 64), 61, 61]
  | [b0, b1] =>
    [b64Char alpha ((b0 * 65536 + b1 * 256) / 262144),
     b64Char alpha ((b0 * 65536 + b1 * 256) / 4096 % 64),
     b64Char alpha ((b0 * 65536 + b1 * 256) / 64 % 64), 61]
  | b0 :: b1 :: b2 :: rest =>
    b64Char alpha ((b0 * 65536 + b1 * 256 + b2) / 262144) ::
    b64Char alpha ((b0 * 65536 + b1 * 256 + b2) / 4096 % 64) ::
    b64Char alpha ((b0 * 65536 + b1 * 256 + b2) / 64 % 64) ::
    b64Char alpha ((b0 * 65536 + b1 * 256 + b2) % 64) ::
    b64EncodeGroups alpha rest

/-- Base64 decoding of a byte list, inverse of `b64EncodeGroups`: four
characters become three bytes; a final group carrying one or two `=`
padding characters yields one or two bytes. Returns `none` on characters
outside the alphabet, misplaced padding, or a length that is not a
multiple of four. -/
def b64DecodeGroups (alpha : List Nat) : List Nat → Option (List Nat)
  | [] => some []
  | c0 :: c1 :: c2 :: c3 :: rest =>
    if c2 = 61 ∧ c3 = 61 ∧ rest = [] then
      (b64Value alpha c0).bind fun v0 =>
        (b64Value alpha c1).bind fun v1 =>
          some [(v0 * 64 + v1) / 16]
    else if c3 = 61 ∧ rest = [] then
      (b64Value alpha c0).bind fun v0 =>
        (b64Value alpha c1).bind fun v1 =>
          (b64Value alpha c2).bind fun v2 =>
            some [(v0 * 4096 + v1 * 64 + v2) / 1024,
                  (v0 * 4096 + v1 * 64 + v2) / 4 % 256]
    else
      (b64Value alpha c0).bind fun v0 =>
        (b64Value alpha c1).bind fun v1 =>
          (b64Value alpha c2).bind fun v2 =>
            (b64Value alpha c3).bind fun v3 =>
              (b64DecodeGroups alpha rest).map fun tail =>
                (v0 * 262144 + v1 * 4096 + v2 * 64 + v3) / 65536 ::
                (v0 * 262144 + v1 * 4096 + v2 * 64 + v3) / 256 % 256 ::
                (v0 * 262144 + v1 * 4096 + v2 * 64 + v3) % 256 :: tail
  | _ => none

/-- Modelled from the spec: `base64.urlsafe_b64encode`. -/
def urlsafeB64Encode (data : List Nat) : List Nat := b64EncodeGroups b64UrlAlphabet data

/-- Modelled from the spec: `base64.urlsafe_b64decode`. -/
def urlsafeB64Decode (data : List Nat) : Option (List Nat) := b64DecodeGroups b64UrlAlphabet data

/-- Modelled from the spec: `base64.b64encode` (standard alphabet). -/
def stdB64Encode (data : List Nat) : List Nat := b64EncodeGroups b64StdAlphabet data

/-- Modelled from the spec: `base64.b64decode` (standard alphabet). -/
def stdB64Decode (data : List Nat) : Option (List Nat) := b64DecodeGroups b64StdAlphabet data

/-! ## SHA-256

Modelled from the spec: the repository calls `hashlib.sha256` and
`hashlib.pbkdf2_hmac("sha256", ...)` from the Python standard library.
The functions below implement SHA-256 as published in FIPS 180-4
(padding, message schedule, 64-round compression over 32-bit words,
big-endian byte order), HMAC as in RFC 2104, and PBKDF2 as in RFC 2898.
32-bit machine words are `Nat` values kept below `2 ^ 32` by explicit
`% w32` reductions.
-/

/-- The 32-bit word modulus. -/
def w32 : Nat := 4294967296

/-- Right rotation of a 32-bit word by `n` places, written with division
and multiplication by powers of two. -/
def rotr32 (n x : Nat) : Nat := (x / 2 ^ n + x % 2 ^ n * 2 ^ (32 - n)) % w32

/-- The big sigma-0 function of FIPS 180-4. -/
def bsig0 (x : Nat) : Nat := rotr32 2 x ^^^ rotr32 13 x ^^^ rotr32 22 x

/-- The big sigma-1 function of FIPS 180-4. -/
def bsig1 (x : Nat) : Nat := rotr32 6 x ^^^ rotr32 11 x ^^^ rotr32 25 x

/-- The small sigma-0 function of FIPS 180-4. -/
def ssig0 (x : Nat) : Nat := rotr32 7 x ^^^ rotr32 18 x ^^^ x / 2 ^ 3

/-- The small sigma-1 function of FIPS 180-4. -/
def ssig1 (x : Nat) : Nat := rotr32 17 x ^^^ rotr32 19 x ^^^ x / 2 ^ 10

/-- The choice function of FIPS 180-4; the bitwise complement of a
32-bit word is its XOR with `2 ^ 32 - 1`. -/
def sha256Ch (x y z : Nat) : Nat := (x &&& y) ^^^ ((x ^^^ 4294967295) &&& z)

/-- The majority function of FIPS 180-4. -/
def sha256Maj (x y z : Nat) : Nat := (x &&& y) ^^^ (x &&& z) ^^^ (y &&& z)

/-- The 64 round constants of SHA-256. -/
def sha256K : List Nat :=
  [1116352408, 1899447441, 3049323471, 3921009573, 961987163,
   1508970993, 2453635748, 2870763221, 3624381080, 310598401,
   607225278, 1426881987, 1925078388, 2162078206, 2614888103,
   3248222580, 3835390401, 4022224774, 264347078, 604807628,
   770255983, 1249150122, 1555081692, 1996064986, 2554220882,
   2821834349, 2952996808, 3210313671, 3336571891, 3584528711,
   113926993, 338241895, 666307205, 773529912, 1294757372,
   1396182291, 1695183700, 1986661051, 2177026350, 2456956037,
   2730485921, 2820302411, 3259730800, 3345764771, 3516065817,
   3600352804, 4094571909, 275423344, 430227734, 506948616,
   659060556, 883997877, 958139571, 1322822218, 1537002063,
   1747873779, 1955562222, 2024104815, 2227730452, 2361852424,
   2428436474, 2756734187, 3204031479, 3329325298]

/-- The eight working variables of the SHA-256 compression function. -/
structure Sha256State where
  a : Nat
  b : Nat
  c : Nat
  d : Nat
  e : Nat
  f : Nat
  g : Nat
  h : Nat
deriving DecidableEq, Repr

/-- The initial hash value of SHA-256. -/
def sha256Init : Sha256State :=
  ⟨1779033703, 3144134277, 1013904242, 2773480762,
   1359893119, 2600822924, 528734635, 1541459225⟩

/-- One round of the SHA-256 compression function, consuming one round
constant paired with one schedule word. -/
def sha256Round (s : Sha256State) (kw : Nat × Nat) : Sha256State :=
  let t1 := (s.h + bsig1 s.e + sha256Ch s.e s.f s.g + kw.1 + kw.2) % w32
  let t2 := (bsig0 s.a + sha256Maj s.a s.b s.c) % w32
  ⟨(t1 + t2) % w32, s.a, s.b, s.c, (s.d + t1) % w32, s.e, s.f, s.g⟩

/-- Extends the 16 message words of a block by `n` further schedule
words per FIPS 180-4. -/
def sha256Schedule (w : List Nat) : Nat → List Nat
  | 0 => w
  | n + 1 =>
    sha256Schedule
      (w ++ [(ssig1 (w.getD (w.length - 2) 0) + w.getD (w.length - 7) 0 +
              ssig0 (w.getD (w.length - 15) 0) + w.getD (w.length - 16) 0) % w32])
      n

/-- Packs a byte list into big-endian 32-bit words, four bytes each. -/
def blockWords : List Nat → List Nat
  | b0 :: b1 :: b2 :: b3 :: rest =>
    (b0 * 16777216 + b1 * 65536 + b2 * 256 + b3) :: blockWords rest
  | _ => []

/-- The SHA-256 compression function applied to one 64-byte block. -/
def sha256Compress (hs : Sha256State) (block : List Nat) : Sha256State :=
  let r := (sha256K.zip (sha256Schedule (blockWords block) 48)).foldl sha256Round hs
  ⟨(hs.a + r.a) % w32, (hs.b + r.b) % w32, (hs.c + r.c) % w32, (hs.d + r.d) % w32,
   (hs.e + r.e) % w32, (hs.f + r.f) % w32, (hs.g + r.g) % w32, (hs.h + r.h) % w32⟩

/-- Splits a byte list into blocks of 64 bytes. -/
def chunks64 : List Nat → List (List Nat)
  | [] => []
  | x :: rest => ((x :: rest).take 64) :: chunks64 ((x :: rest).drop 64)
termination_by l => l.length
decreasing_by simp; omega

/-- FIPS 180-4 message padding: a 0x80 byte, zeros up to 56 modulo 64,
then the bit length as eight big-endian bytes. -/
def sha256Pad (msg : List Nat) : List Nat :=
  msg ++ 0x80 :: List.replicate ((119 - msg.length % 64) % 64) 0 ++
    [msg.length * 8 / 2 ^ 56 % 256, msg.length * 8 / 2 ^ 48 % 256,
     msg.length * 8 / 2 ^ 40 % 256, msg.length * 8 / 2 ^ 32 % 256,
     msg.length * 8 / 2 ^ 24 % 256, msg.length * 8 / 2 ^ 16 % 256,
     msg.length * 8 / 2 ^ 8 % 256, msg.length * 8 % 256]

/-- The four big-endian bytes of a 32-bit word. -/
def wordBytes (w : Nat) : List Nat :=
  [w / 2 ^ 24 % 256, w / 2 ^ 16 % 256, w / 2 ^ 8 % 256, w % 256]

/-- Modelled from the spec: `hashlib.sha256(msg).digest()`, the 32-byte
SHA-256 digest of a byte list. -/
def sha256Bytes (msg : List Nat) : List Nat :=
  let hs := (chunks64 (sha256Pad msg)).foldl sha256Compress sha256Init
  wordBytes hs.a ++ wordBytes hs.b ++ wordBytes hs.c ++ wordBytes hs.d ++
  wordBytes hs.e ++ wordBytes hs.f ++ wordBytes hs.g ++ wordBytes hs.h

/-- Modelled from the spec: HMAC-SHA256 per RFC 2104 (key padded or
hashed to the 64-byte block size, inner pad 0x36, outer pad 0x5c). -/
def hmacSha256 (key msg : List Nat) : List Nat :=
  let k0 := if 64 < key.length then sha256Bytes key else key
  let kp := k0 ++ List.replicate (64 - k0.length) 0
  sha256Bytes (kp.map (fun b => b ^^^ 0x5c) ++
    sha256Bytes (kp.map (fun b => b ^^^ 0x36) ++ msg))

/-- The iterated XOR accumulation of PBKDF2: `n` further HMAC rounds
folded onto the accumulator. -/
def pbkdf2Loop (password u acc : List Nat) : Nat → List Nat
  | 0 => acc
  | n + 1 =>
    pbkdf2Loop password (hmacSha256 password u)
      (acc.zipWith (fun a b => a ^^^ b) (hmacSha256 password u)) n

/-- Modelled from the spec: `hashlib.pbkdf2_hmac("sha256", password,
salt, iterations, dklen=length)` for `length` at most 32 (the source
`security._pbkdf2` always asks for 32 bytes): the first derived block
per RFC 2898, truncated to `length` bytes. -/
def pbkdf2 (password salt : List Nat) (length iterations : Nat) : List Nat :=
  (pbkdf2Loop password (hmacSha256 password (salt ++ [0, 0, 0, 1]))
    (hmacSha256 password (salt ++ [0, 0, 0, 1])) (iterations - 1)).take length

/-! ## security.py

The embedding of `src/security.py`. Python `bytes` values are byte
lists; the plaintext argument of `encrypt_text` is its UTF-8 byte
encoding, and the string results of `decrypt_text` are likewise kept at
the byte level, so the `str`/`bytes` codec boundary is the identity.
-/

/-- From `security.secrets_compare_digest`: length check, then a
constant-time XOR-accumulating comparison over the zipped byte lists. -/
def secrets_compare_digest (a b : List Nat) : Bool :=
  if a.length ≠ b.length then false
  else ((a.zip b).foldl (fun result p => result ||| (p.1 ^^^ p.2)) 0) == 0

/-- From `security.verify_password`: decode the stored salt and hash
from standard base64, re-derive with PBKDF2 (32 bytes, 390000
iterations) and compare in constant time. A base64 decoding failure
propagates as `none` (an uncaught `binascii.Error` in Python). -/
def verify_password (password stored_hash_b64 salt_b64 : List Nat) : Option Bool :=
  (stdB64Decode salt_b64).bind fun salt =>
    (stdB64Decode stored_hash_b64).bind fun expected_hash =>
      some (secrets_compare_digest expected_hash (pbkdf2 password salt 32 390000))

/-- The UTF-8 bytes of the literal sentinel string returned by
`decrypt_text` when decryption fails. -/
def unableToDecrypt : List Nat :=
  [91, 117, 110, 97, 98, 108, 101, 32, 116, 111, 32, 100, 101, 99, 114,
   121, 112, 116, 93]

/-- A Fernet key is valid when it is a non-empty byte string. -/
def ValidFernetKey (key : List Nat) : Prop := key ≠ [] ∧ ∀ b ∈ key, b < 256

instance (key : List Nat) : Decidable (ValidFernetKey key) := by
  unfold ValidFernetKey
  infer_instance

/-- Modelled from the spec: a ciphertext string as produced by
`encrypt_text`. Real `cryptography.fernet.Fernet` tokens are opaque
base64 text; the contract the repository relies on (spec section 4.1)
is that a token decrypts back to its payload under the key that made it
and fails authentication under every other key. A token is therefore
modelled by the key and payload it binds, plus the empty string. -/
inductive CipherText where
  | nil
  | token (key : List Nat) (payload : List Nat)
deriving DecidableEq, Repr

/-- Modelled from the spec: `Fernet(key).encrypt(data)`. -/
def fernetEncrypt (key data : List Nat) : CipherText := CipherText.token key data

/-- Modelled from the spec: `Fernet(key).decrypt(token)`; `none` models
the `InvalidToken` exception raised on a key mismatch. -/
def fernetDecrypt (key : List Nat) : CipherText → Option (List Nat)
  | CipherText.nil => none
  | CipherText.token k payload => if k = key then some payload else none

/-- From `security.encrypt_text` on the authenticated-encryption path:
empty plaintext short-circuits to the empty string, otherwise the
Fernet token of the UTF-8 plaintext bytes. -/
def encrypt_text (plaintext key : List Nat) : CipherText :=
  if plaintext = [] then CipherText.nil else fernetEncrypt key plaintext

/-- From `security.decrypt_text` on the authenticated-encryption path:
empty ciphertext short-circuits to the empty string; `InvalidToken`
(`none`) is caught and replaced by the literal sentinel. -/
def decrypt_text (ciphertext : CipherText) (key : List Nat) : List Nat :=
  if ciphertext = CipherText.nil then []
  else
    match fernetDecrypt key ciphertext with
    | some data => data
    | none => unableToDecrypt

/-- From `security._FallbackFernet.__init__`: the key stream is the
SHA-256 digest of the key material. -/
def fallbackKeyStream (key : List Nat) : List Nat := sha256Bytes key

/-- From `security._FallbackFernet._xor`: each byte is XORed with the
key-stream byte at its index modulo the stream length; the index
argument carries the position of Python `enumerate`. -/
def fallbackXor (stream : List Nat) : Nat → List Nat → List Nat
  | _, [] => []
  | i, b :: rest => (b ^^^ stream.getD (i % stream.length) 0) :: fallbackXor stream (i + 1) rest

/-- From `security._FallbackFernet.encrypt`: empty data passes through,
otherwise the XORed bytes are url-safe base64 encoded. -/
def fallbackFernetEncrypt (key data : List Nat) : List Nat :=
  if data = [] then [] else urlsafeB64Encode (fallbackXor (fallbackKeyStream key) 0 data)

/-- From `security._FallbackFernet.decrypt`: empty tokens pass through;
a base64 decoding failure raises `InvalidToken` (`none`); otherwise the
decoded payload is XORed back. -/
def fallbackFernetDecrypt (key token : List Nat) : Option (List Nat) :=
  if token = [] then some []
  else
    (urlsafeB64Decode token).map fun payload =>
      fallbackXor (fallbackKeyStream key) 0 payload

/-- From `security.encrypt_text` when the `cryptography` package is
absent and `Fernet` is `_FallbackFernet`. -/
def encrypt_text_fallback (plaintext key : List Nat) : List Nat :=
  if plaintext = [] then [] else fallbackFernetEncrypt key plaintext

/-- From `security.decrypt_text` when `Fernet` is `_FallbackFernet`:
`InvalidToken` is caught and replaced by the literal sentinel. -/
def decrypt_text_fallback (ciphertext key : List Nat) : List Nat :=
  if ciphertext = [] then []
  else
    match fallbackFernetDecrypt key ciphertext with
    | some data => data
    | none => unableToDecrypt

/-! ## Python string helpers

The repository uses the Python built-in string methods `str.strip` and
`str.lower`. They are modelled character-wise on the underlying
character list of a Lean `String`.
-/

/-- Modelled from the spec: Python `str.strip()` with no argument,
removing whitespace from both ends. -/
def pyStrip (s : String) : String :=
  ⟨(((s.data.dropWhile Char.isWhitespace).reverse.dropWhile Char.isWhitespace).reverse)⟩

/-- Modelled from the spec: Python `str.lower()` (only ASCII labels are
lowered by the code under study). -/
def pyLower (s : String) : String := ⟨s.data.map Char.toLower⟩

/-! ## Data model

Session-state entities of `app.py`, as loaded by `load_user_data`. Wall
clock instants (`datetime` values) are modelled as `Int` values on a
linear timeline measured in seconds, except in the calendar studio
where the widgets themselves work with a calendar day plus an
hour/minute time of day.
-/

/-- A clock time as produced by `datetime.time`, used by the calendar
forms and the timeline-drag slider. -/
structure TimeHM where
  hour : Nat
  minute : Nat
deriving DecidableEq, Repr

/-- A `datetime` as assembled by `datetime.combine(date, time)`: a
calendar day index plus a time of day. -/
structure DateTimeDT where
  day : Int
  time : TimeHM
deriving DecidableEq, Repr

/-- The minute-of-timeline value of a combined datetime, fixing the
linear order used by `end <= start` comparisons. -/
def dtMinutes (d : DateTimeDT) : Int :=
  d.day * 1440 + (d.time.hour * 60 + d.time.minute : Nat)

/-- From `app.minutes_from_time_value`. -/
def minutes_from_time_value (value : TimeHM) : Nat := value.hour * 60 + value.minute

/-- From `app.minutes_to_time_value`: clamp to the day, then cap the
hour at 23. -/
def minutes_to_time_value (total_minutes : Nat) : TimeHM :=
  let tm := max 0 (min total_minutes (24 * 60 - 1))
  ⟨min (tm / 60) 23, tm % 60⟩

/-- An event-checklist item of a calendar event (`normalize_event_tasks`
shape): id, label, done flag, optional link to a personal task. -/
structure EventTask where
  id : String
  label : String
  done : Bool
  linked_task_id : Option String
deriving DecidableEq, Repr

/-- A calendar event as held in `st.session_state.calendar_events`. -/
structure CalendarEvent where
  id : Nat
  title : String
  location : String
  notes : String
  tag : String
  color : String
  startAt : DateTimeDT
  endAt : DateTimeDT
  tasks : List EventTask
deriving DecidableEq, Repr

/-- A personal task as held in `st.session_state.tasks`: id, title,
size, done flag, creation timestamp, optional completion timestamp. -/
structure PersonalTask where
  id : String
  title : String
  size : String
  done : Bool
  created_at : Int
  completed_at : Option Int
deriving DecidableEq, Repr

/-- The authenticated session state the embedded `app.py` handlers act
on: the signed-in user (with the derived key) and the per-user entity
lists. Database writes mirror these lists row for row (`load_user_data`
reloads them after every write), so the session lists are the stored
state observed by every view. -/
structure AppState where
  user : Option Nat
  tasks : List PersonalTask
  calendar_events : List CalendarEvent
deriving DecidableEq, Repr

/-- In-place mutation of the first list element satisfying `p`, the
effect of the `for ... if ...: mutate; break` loops of `app.py` (and of
an SQL `UPDATE` keyed by a primary key). -/
def updateFirst (p : α → Bool) (f : α → α) : List α → List α
  | [] => []
  | x :: xs => if p x then f x :: xs else x :: updateFirst p f xs

/-! ## db.py: check-in fetch -/

/-- A row of the `check_ins` table; `rowid` stands in for the SQLite
integer primary key so that distinct rows stay distinguishable, and the
payload columns not involved in ordering are elided. -/
structure CheckInRow where
  rowid : Nat
  user_id : Nat
  timestamp : Int
deriving DecidableEq, Repr

/-- The ordering relation of `ORDER BY timestamp ASC`. -/
def tsLe (a b : CheckInRow) : Prop := a.timestamp ≤ b.timestamp

instance : DecidableRel tsLe := fun a b => inferInstanceAs (Decidable (a.timestamp ≤ b.timestamp))

instance : IsTotal CheckInRow tsLe := ⟨fun a b => Int.le_total a.timestamp b.timestamp⟩

instance : IsTrans CheckInRow tsLe := ⟨fun _ _ _ => Int.le_trans⟩

/-- From `db.fetch_check_ins`: `SELECT * FROM check_ins WHERE user_id =
? ORDER BY timestamp ASC LIMIT ?` over a table of rows — filter by
owner, sort ascending by timestamp, keep the first `limit` rows. The
Python signature defaults `limit` to 200, which every caller uses. -/
def fetch_check_ins (table : List CheckInRow) (uid : Nat) (limit : Nat) : List CheckInRow :=
  (List.insertionSort tsLe (table.filter (fun r => r.user_id == uid))).take limit

/-! ## app.py: tasks, linkage, calendar forms -/

/-- From `app.add_personal_task`: without a signed-in user the call
shows an error and returns the empty id; otherwise a fresh task is
appended (and inserted into `personal_tasks`) with the given title and
size, done false, and no completion time, returning the new id. -/
def add_personal_task (st : AppState) (title size : String) (newId : String) (now : Int) :
    AppState × String :=
  match st.user with
  | none => (st, "")
  | some _ =>
    ({ st with tasks := st.tasks ++ [⟨newId, title, size, false, now, none⟩] }, newId)

/-- From `app.toggle_task_completion`: set the done flag of the first
task with the given id, stamping the completion time when newly done
and clearing it otherwise (the matching database update is skipped for
placeholder ids, which never reach the stored list). -/
def toggle_task_completion (st : AppState) (taskId : String) (done : Bool) (now : Int) :
    AppState :=
  { st with
    tasks := updateFirst (fun t => t.id == taskId)
      (fun t => { t with done := done, completed_at := if done then some now else none })
      st.tasks }

/-- From `app.sync_personal_task_to_events`: with a signed-in user, set
the done flag of every event task linked to the given personal task,
across all calendar events. -/
def sync_personal_task_to_events (st : AppState) (personalTaskId : String) (done : Bool) :
    AppState :=
  match st.user with
  | none => st
  | some _ =>
    { st with
      calendar_events := st.calendar_events.map fun e =>
        { e with
          tasks := e.tasks.map fun t =>
            if t.linked_task_id == some personalTaskId then { t with done := done } else t } }

/-- From `app.toggle_personal_task_state` (the checkbox callback of the
personal checklist): toggle the task, then propagate into events. -/
def toggle_personal_task_state (st : AppState) (taskId : String) (done : Bool) (now : Int) :
    AppState :=
  sync_personal_task_to_events (toggle_task_completion st taskId done now) taskId done

/-- From `app.update_event_task_completion`: with a signed-in user and
an existing event, set the done flag of the first event task with the
given id, persist the task JSON, and, when that task links to a
personal task, toggle the personal task to the same state. -/
def update_event_task_completion (st : AppState) (eventId : Nat) (taskId : String)
    (done : Bool) (now : Int) : AppState :=
  match st.user with
  | none => st
  | some _ =>
    match st.calendar_events.find? (fun e => e.id == eventId) with
    | none => st
    | some event =>
      let linked := (event.tasks.find? (fun t => t.id == taskId)).bind
        (fun t => t.linked_task_id)
      let st1 :=
        { st with
          calendar_events := updateFirst (fun e => e.id == eventId)
            (fun e =>
              { e with
                tasks := updateFirst (fun t => t.id == taskId)
                  (fun t => { t with done := done }) e.tasks })
            st.calendar_events }
      match linked with
      | some pid => toggle_task_completion st1 pid done now
      | none => st1

/-- From `app.link_event_task_to_personal`: record a personal-task id
on the first matching event task of the matching event, persisting the
task JSON when signed in (the session list is mutated regardless). -/
def link_event_task_to_personal (st : AppState) (eventId : Nat) (taskId : String)
    (personalTaskId : String) : AppState :=
  { st with
    calendar_events := updateFirst (fun e => e.id == eventId)
      (fun e =>
        { e with
          tasks := updateFirst (fun t => t.id == taskId)
            (fun t => { t with linked_task_id := some personalTaskId }) e.tasks })
      st.calendar_events }

/-- From `app.add_calendar_event`: with a signed-in user (and key), the
encrypted payload row is inserted into `calendar_events`. -/
def add_calendar_event (st : AppState) (e : CalendarEvent) : AppState :=
  match st.user with
  | none => st
  | some _ => { st with calendar_events := st.calendar_events ++ [e] }

/-- From `app.update_calendar_event`: with a signed-in user, every
payload column of the row with the given id is overwritten. -/
def update_calendar_event (st : AppState) (eventId : Nat) (e : CalendarEvent) : AppState :=
  match st.user with
  | none => st
  | some _ =>
    { st with
      calendar_events := updateFirst (fun ev => ev.id == eventId)
        (fun ev => { e with id := ev.id }) st.calendar_events }

/-- Outcome of a calendar-studio form submission: saved, or rejected
with the inline title error or the inline end-before-start error. -/
inductive FormResult where
  | saved
  | errTitle
  | errTime
deriving DecidableEq, Repr

/-- From `render_calendar_studio`, the create branch: an empty
(stripped) title is rejected first; then the combined end datetime must
be strictly after the combined start datetime; only then is the event
stored, with both combined timestamps exactly as entered. The checklist
text has already been turned into tasks by `build_tasks_from_text`. -/
def submitCreateEvent (st : AppState) (newId : Nat) (title location notes tag color : String)
    (dateV : Int) (startT endT : TimeHM) (tasks : List EventTask) : FormResult × AppState :=
  if pyStrip title = "" then (FormResult.errTitle, st)
  else
    let start_dt : DateTimeDT := ⟨dateV, startT⟩
    let end_dt : DateTimeDT := ⟨dateV, endT⟩
    if dtMinutes end_dt ≤ dtMinutes start_dt then (FormResult.errTime, st)
    else
      (FormResult.saved,
       add_calendar_event st
         ⟨newId, pyStrip title, pyStrip location, pyStrip notes, tag, color,
          start_dt, end_dt, tasks⟩)

/-- From `render_calendar_studio`, the edit branch: the combined end
datetime must be strictly after the combined start datetime (there is
no title check on edit); on success every payload field of the event is
updated, with both combined timestamps exactly as entered. -/
def submitEditEvent (st : AppState) (eventId : Nat) (title location notes tag color : String)
    (dateV : Int) (startT endT : TimeHM) (tasks : List EventTask) : FormResult × AppState :=
  let start_dt : DateTimeDT := ⟨dateV, startT⟩
  let end_dt : DateTimeDT := ⟨dateV, endT⟩
  if dtMinutes end_dt ≤ dtMinutes start_dt then (FormResult.errTime, st)
  else
    (FormResult.saved,
     update_calendar_event st eventId
       ⟨eventId, pyStrip title, pyStrip location, pyStrip notes, tag, color,
        start_dt, end_dt, tasks⟩)

/-- From `render_calendar_studio`, the timeline-drag apply branch: the
new start is the drag date combined with the first slider handle; the
new end is the drag date combined with `max (r0 + 15) r1`, both put
through `minutes_to_time_value`; the update is persisted through
`update_calendar_event` when the new end is after the new start. -/
def applyDragUpdate (st : AppState) (selected : CalendarEvent) (dragDate : Int)
    (r0 r1 : Nat) : AppState :=
  let newStart : DateTimeDT := ⟨dragDate, minutes_to_time_value r0⟩
  let newEnd : DateTimeDT := ⟨dragDate, minutes_to_time_value (max (r0 + 15) r1)⟩
  if dtMinutes newEnd ≤ dtMinutes newStart then st
  else
    update_calendar_event st selected.id
      { selected with startAt := newStart, endAt := newEnd }

/-! ## app.py: task creation flows and slot filling -/

/-- The personal-task size vocabulary of the data model (spec section
3): Tiny, Medium, Big. -/
def allowedTaskSizes : List String := ["Tiny", "Medium", "Big"]

/-- From `render_home`, the planner section: the options of the task
cloud size selectbox, exactly as written in the source (the middle
option carries a trailing space), with the default at index 1. -/
def homeCloudSizeOptions : List String := ["Small", "Medium ", "Large"]

/-- From `render_home`, the planner section: the save-task button
creates a personal task from the stripped entry text and the selected
size when the text is non-empty, and otherwise shows an error. -/
def submitCloudTask (st : AppState) (newTask size : String) (newId : String) (now : Int) :
    AppState :=
  if pyStrip newTask ≠ "" then (add_personal_task st (pyStrip newTask) size newId now).1
  else st

/-- From `render_calendar_studio`, the checklist tab: the push to
personal list action creates a size-Tiny personal task from the event
task label and, when an id came back, links the event task to it. -/
def pushEventTaskToPersonal (st : AppState) (eventId : Nat) (taskId : String)
    (label : String) (newId : String) (now : Int) : AppState :=
  let r := add_personal_task st label "Tiny" newId now
  if r.2 ≠ "" then link_event_task_to_personal r.1 eventId taskId r.2 else r.1

/-- The three slots of `today_three_tasks`, keyed Big, Medium, Tiny.
The Python loop keeps its slots in a dict that can also pick up keys
for stray sizes, but only the three keys below are ever read. -/
structure TrioSlots where
  big : Option PersonalTask
  medium : Option PersonalTask
  tiny : Option PersonalTask
deriving DecidableEq, Repr

/-- The slot-filling loop of `app.today_three_tasks`: each not-done
task fills the empty slot of its size, first come first kept. -/
def fillSlots : List PersonalTask → TrioSlots → TrioSlots
  | [], s => s
  | t :: rest, s =>
    if !t.done && t.size == "Big" && s.big.isNone then
      fillSlots rest { s with big := some t }
    else if !t.done && t.size == "Medium" && s.medium.isNone then
      fillSlots rest { s with medium := some t }
    else if !t.done && t.size == "Tiny" && s.tiny.isNone then
      fillSlots rest { s with tiny := some t }
    else fillSlots rest s

/-- An entry of the returned trio: a real task, or the synthesized
placeholder dict (id `placeholder-<size>`, guidance text as title, done
false, no creation or completion fields). -/
inductive TrioEntry where
  | task (t : PersonalTask)
  | placeholder (size : String) (title : String)
deriving DecidableEq, Repr

/-- The fixed per-size guidance texts of `app.today_three_tasks`. -/
def sizeGuidance (size : String) : String :=
  if size = "Big" then "Choose one bold move (project chunk, call, study sprint)."
  else if size = "Medium" then "Handle an admin task or prep a meal."
  else "Send one message or tidy one corner."

/-- The trio entry of one slot: the slotted task, or the placeholder
carrying the guidance text of the size. -/
def trioEntryFor (slot : Option PersonalTask) (size : String) : TrioEntry :=
  match slot with
  | some t => TrioEntry.task t
  | none => TrioEntry.placeholder size (sizeGuidance size)

/-- From `app.today_three_tasks`: fill the slots from the task list in
stored (creation) order, then emit one entry per size in the fixed
order Big, Medium, Tiny. -/
def today_three_tasks (tasks : List PersonalTask) : List TrioEntry :=
  let s := fillSlots tasks ⟨none, none, none⟩
  [trioEntryFor s.big "Big", trioEntryFor s.medium "Medium", trioEntryFor s.tiny "Tiny"]

/-! ## app.py: weekly digest -/

/-- The fixed schedule vocabulary `app.SCHEDULES`. -/
def SCHEDULES : List String := ["Day", "Night", "Mixed"]

/-- A check-in as held in session state, restricted to the fields the
digest reads. -/
structure CheckIn where
  timestamp : Int
  mood : Nat
  energy : Nat
  schedule : String
deriving DecidableEq, Repr

/-- A symptom entry as held in session state, restricted to the field
the digest reads. -/
structure SymptomEntry where
  date : Int
deriving DecidableEq, Repr

/-- The number of seconds in seven days, the span of
`timedelta(days=7)` on the seconds timeline. -/
def sevenDays : Int := 7 * 86400

/-- The in-window check-ins of `weekly_digest_summary`: timestamps at
least `now` minus seven days. -/
def digestRecentChecks (now : Int) (check_ins : List CheckIn) : List CheckIn :=
  check_ins.filter (fun c => decide (now - sevenDays ≤ c.timestamp))

/-- The in-window symptom entries of `weekly_digest_summary`. -/
def digestRecentSymptoms (now : Int) (symptoms : List SymptomEntry) : List SymptomEntry :=
  symptoms.filter (fun s => decide (now - sevenDays ≤ s.date))

/-- The occurrence count of one schedule label among the in-window
check-ins, one entry of the `counts` dict. -/
def scheduleCount (recent : List CheckIn) (label : String) : Nat :=
  (recent.filter (fun c => c.schedule == label)).length

/-- Python `max(iterable, key=f)` over a non-empty list given as head
and tail: the first element attaining the maximal key (a later element
replaces the current best only when strictly greater). -/
def pyMaxByKey (f : String → Nat) : List String → String → String
  | [], best => best
  | x :: xs, best => pyMaxByKey f xs (if f best < f x then x else best)

/-- The dominant schedule of the digest: `max(counts, key=counts.get)`
over the `counts` dict, whose keys iterate in `SCHEDULES` order. -/
def dominantSchedule (recent : List CheckIn) : String :=
  pyMaxByKey (scheduleCount recent) ["Night", "Mixed"] "Day"

/-- Modelled from the spec: the fixed-one-decimal float formatting
`f"{num / den:.1f}"` of CPython, as the rounded number of tenths.
Python divides in IEEE-754 double precision and formats the resulting
double; this model rounds the exact rational `num / den` to tenths with
ties to even, which agrees with the float pipeline away from
representation boundaries. -/
def fmt1Tenths (num den : Nat) : Nat :=
  let scaled := num * 10
  if 2 * (scaled % den) < den then scaled / den
  else if den < 2 * (scaled % den) then scaled / den + 1
  else if scaled / den % 2 = 0 then scaled / den
  else scaled / den + 1

/-- The formatted one-decimal string of `num / den`. -/
def fmt1 (num den : Nat) : String :=
  toString (fmt1Tenths num den / 10) ++ "." ++ toString (fmt1Tenths num den % 10)

/-- The total mood of a list of check-ins. -/
def sumMood (l : List CheckIn) : Nat := (l.map (fun c => c.mood)).sum

/-- The total energy of a list of check-ins. -/
def sumEnergy (l : List CheckIn) : Nat := (l.map (fun c => c.energy)).sum

/-- The fixed message returned when the window holds no check-ins. -/
def noCheckInsMessage : String :=
  "No check-ins this week. Maybe jot one down so Future You has breadcrumbs."

/-- The symptom clause of the digest, chosen by whether any in-window
symptom entries exist. -/
def digestSymptomLine (recentSymptoms : List SymptomEntry) : String :=
  if recentSymptoms.length ≠ 0 then
    "You logged " ++ toString recentSymptoms.length ++
      " symptom notes — maybe bring them to your care team."
  else "No symptom logs this week. Rest is welcome."

/-- From `app.weekly_digest_summary`: restrict both lists to the last
seven days; with no in-window check-ins return the fixed message;
otherwise report the one-decimal mean mood and energy, the dominant
schedule lowered, and the symptom clause. -/
def weekly_digest_summary (now : Int) (check_ins : List CheckIn)
    (symptoms : List SymptomEntry) : String :=
  let recent := digestRecentChecks now check_ins
  if recent.length = 0 then noCheckInsMessage
  else
    "Average mood " ++ fmt1 (sumMood recent) recent.length ++
    "/10, energy " ++ fmt1 (sumEnergy recent) recent.length ++
    "/10. You lived mostly in " ++ pyLower (dominantSchedule recent) ++
    " rhythm. " ++ digestSymptomLine (digestRecentSymptoms now symptoms)

/-- A `check_ins` table holding 201 rows for user 1 with distinct
ascending timestamps 0 to 200, used to exercise the 200-row cap. -/
def capTable : List CheckInRow := (List.range 201).map (fun i => ⟨i, 1, (i : Int)⟩)

/-! ## Helper lemmas -/

theorem nat_or_eq_zero {a b : Nat} : a ||| b = 0 ↔ a = 0 ∧ b = 0 := by
  constructor
  · intro h
    have ha : a = 0 := by
      apply Nat.eq_of_testBit_eq
      intro i
      have := congrArg (fun x => Nat.testBit x i) h
      simp [Nat.testBit_or] at this
      simp [this.1]
    have hb : b = 0 := by
      apply Nat.eq_of_testBit_eq
      intro i
      have := congrArg (fun x => Nat.testBit x i) h
      simp [Nat.testBit_or] at this
      simp [this.2]
    exact ⟨ha, hb⟩
  · rintro ⟨rfl, rfl⟩
    rfl

theorem foldl_or_xor_eq_zero (l : List (Nat × Nat)) (acc : Nat) :
    (l.foldl (fun result p => result ||| (p.1 ^^^ p.2)) acc = 0) ↔
      (acc = 0 ∧ ∀ p ∈ l, p.1 = p.2) := by
  induction l generalizing acc with
  | nil => simp
  | cons hd tl ih =>
    simp only [List.foldl_cons, ih, nat_or_eq_zero, Nat.xor_eq_zero, List.mem_cons]
    constructor
    · rintro ⟨⟨h1, h2⟩, h3⟩
      refine ⟨h1, fun p hp => ?_⟩
      rcases hp with rfl | hp
      · exact h2
      · exact h3 p hp
    · rintro ⟨h1, h2⟩
      exact ⟨⟨h1, h2 hd (Or.inl rfl)⟩, fun p hp => h2 p (Or.inr hp)⟩

theorem zip_forall_eq : ∀ (a b : List Nat), a.length = b.length →
    ((∀ p ∈ a.zip b, p.1 = p.2) ↔ a = b)
  | [], [], _ => by simp
  | [], _ :: _, h => by simp at h
  | _ :: _, [], h => by simp at h
  | x :: xs, y :: ys, h => by
    have ih := zip_forall_eq xs ys (by simpa using h)
    simp only [List.zip_cons_cons, List.mem_cons, List.cons.injEq]
    constructor
    · intro hp
      have hx : x = y := hp (x, y) (Or.inl rfl)
      exact ⟨hx, ih.1 fun p hp2 => hp p (Or.inr hp2)⟩
    · rintro ⟨rfl, rfl⟩
      intro p hp
      rcases hp with rfl | hp
      · rfl
      · exact ih.2 rfl p hp

theorem secrets_compare_digest_iff (a b : List Nat) :
    secrets_compare_digest a b = true ↔ a = b := by
  unfold secrets_compare_digest
  by_cases h : a.length = b.length
  · rw [if_neg (by simpa using h)]
    rw [beq_iff_eq, foldl_or_xor_eq_zero]
    simp only [true_and]
    exact zip_forall_eq a b h
  · rw [if_pos (by simpa using h)]
    simp only [Bool.false_eq_true, false_iff]
    intro hab
    exact h (by rw [hab])

/-! ## Claim C10 -/

/-- C10: `secrets_compare_digest(a, b)` returns true exactly when the
byte strings are equal (same length, identical bytes everywhere), and
consequently `verify_password` accepts a candidate password exactly
when its PBKDF2 derivation under the stored salt equals the stored
hash. -/
theorem claim_C10_compare_digest_verify_password :
    (∀ a b : List Nat, secrets_compare_digest a b = true ↔ a = b) ∧
    (∀ password hb sb expected salt : List Nat,
      stdB64Decode hb = some expected → stdB64Decode sb = some salt →
      (verify_password password hb sb = some true ↔
        pbkdf2 password salt 32 390000 = expected)) := by
  refine ⟨secrets_compare_digest_iff, ?_⟩
  intro password hb sb expected salt h1 h2
  unfold verify_password
  rw [h2, Option.some_bind, h1, Option.some_bind, Option.some_inj]
  rw [secrets_compare_digest_iff]
  exact eq_comm

/-- Witness for C10 at a concrete stored record: the base64 text
`QQ==` decodes to the single byte 65 and `c2FsdA==` to the bytes of
the word salt. -/
theorem claim_C10_compare_digest_verify_password_witness :
    stdB64Decode [81, 81, 61, 61] = some [65] ∧
    stdB64Decode [99, 50, 70, 115, 100, 65, 61, 61] = some [115, 97, 108, 116] ∧
    (verify_password [112] [81, 81, 61, 61] [99, 50, 70, 115, 100, 65, 61, 61] = some true ↔
      pbkdf2 [112] [115, 97, 108, 116] 32 390000 = [65]) :=
  ⟨by decide, by decide,
   claim_C10_compare_digest_verify_password.2 [112] [81, 81, 61, 61]
     [99, 50, 70, 115, 100, 65, 61, 61] [65] [115, 97, 108, 116] (by decide) (by decide)⟩

/-! ## Base64 round trip (url-safe alphabet) -/

theorem b64UrlValue_char : ∀ v, v < 64 →
    b64Value b64UrlAlphabet (b64Char b64UrlAlphabet v) = some v := by decide

theorem b64UrlChar_ne_61 : ∀ v, v < 64 → b64Char b64UrlAlphabet v ≠ 61 := by decide

theorem b64Url_roundtrip : ∀ (data : List Nat), (∀ b ∈ data, b < 256) →
    b64DecodeGroups b64UrlAlphabet (b64EncodeGroups b64UrlAlphabet data) = some data
  | [], _ => by simp [b64EncodeGroups, b64DecodeGroups]
  | [b0], h => by
    have hb0 : b0 < 256 := h b0 (by simp)
    have h1 : b0 * 65536 / 262144 < 64 := by omega
    have h2 : b0 * 65536 / 4096 % 64 < 64 := by omega
    simp only [b64EncodeGroups, b64DecodeGroups]
    rw [if_pos ⟨trivial, trivial, trivial⟩, b64UrlValue_char _ h1, b64UrlValue_char _ h2]
    simp only [Option.some_bind, Option.some.injEq, List.cons.injEq, and_true]
    omega
  | [b0, b1], h => by
    have hb0 : b0 < 256 := h b0 (by simp)
    have hb1 : b1 < 256 := h b1 (by simp)
    have h1 : (b0 * 65536 + b1 * 256) / 262144 < 64 := by omega
    have h2 : (b0 * 65536 + b1 * 256) / 4096 % 64 < 64 := by omega
    have h3 : (b0 * 65536 + b1 * 256) / 64 % 64 < 64 := by omega
    simp only [b64EncodeGroups, b64DecodeGroups]
    rw [if_neg (fun hc => b64UrlChar_ne_61 _ h3 hc.1), if_pos ⟨trivial, trivial⟩,
      b64UrlValue_char _ h1, b64UrlValue_char _ h2, b64UrlValue_char _ h3]
    simp only [Option.some_bind, Option.some.injEq, List.cons.injEq, and_true]
    constructor
    · omega
    · omega
  | b0 :: b1 :: b2 :: rest, h => by
    have hb0 : b0 < 256 := h b0 (by simp)
    have hb1 : b1 < 256 := h b1 (by simp)
    have hb2 : b2 < 256 := h b2 (by simp)
    have ih := b64Url_roundtrip rest (fun b hb => h b (by simp [hb]))
    have h1 : (b0 * 65536 + b1 * 256 + b2) / 262144 < 64 := by omega
    have h2 : (b0 * 65536 + b1 * 256 + b2) / 4096 % 64 < 64 := by omega
    have h3 : (b0 * 65536 + b1 * 256 + b2) / 64 % 64 < 64 := by omega
    have h4 : (b0 * 65536 + b1 * 256 + b2) % 64 < 64 := by omega
    simp only [b64EncodeGroups, b64DecodeGroups]
    rw [if_neg (fun hc => b64UrlChar_ne_61 _ h3 hc.1),
      if_neg (fun hc => b64UrlChar_ne_61 _ h4 hc.1),
      b64UrlValue_char _ h1, b64UrlValue_char _ h2, b64UrlValue_char _ h3,
      b64UrlValue_char _ h4]
    simp only [Option.some_bind, ih, Option.map_some', Option.some.injEq, List.cons.injEq,
      and_true]
    refine ⟨?_, ?_, ?_⟩
    · omega
    · omega
    · omega

theorem b64EncodeGroups_ne_nil (alpha : List Nat) :
    ∀ (l : List Nat), l ≠ [] → b64EncodeGroups alpha l ≠ []
  | [], h => absurd rfl h
  | [_], _ => by simp [b64EncodeGroups]
  | [_, _], _ => by simp [b64EncodeGroups]
  | _ :: _ :: _ :: _, _ => by simp [b64EncodeGroups]

/-! ## Fallback cipher lemmas -/

theorem fallbackXor_involutive (stream : List Nat) : ∀ (i : Nat) (data : List Nat),
    fallbackXor stream i (fallbackXor stream i data) = data
  | _, [] => rfl
  | i, b :: rest => by
    simp only [fallbackXor]
    rw [Nat.xor_cancel_right, fallbackXor_involutive stream (i + 1) rest]

theorem getD_byte_lt (stream : List Nat) (hs : ∀ b ∈ stream, b < 256) (k : Nat) :
    stream.getD k 0 < 256 := by
  by_cases hk : k < stream.length
  · rw [List.getD_eq_getElem stream 0 hk]
    exact hs _ (List.getElem_mem hk)
  · rw [List.getD_eq_default stream 0 (by omega)]
    norm_num

theorem fallbackXor_lt (stream : List Nat) (hs : ∀ b ∈ stream, b < 256) :
    ∀ (i : Nat) (data : List Nat), (∀ b ∈ data, b < 256) →
      ∀ b ∈ fallbackXor stream i data, b < 256
  | _, [], _ => by simp [fallbackXor]
  | i, b :: rest, hd => by
    intro x hx
    simp only [fallbackXor, List.mem_cons] at hx
    rcases hx with rfl | hx
    · have h1 : b < 2 ^ 8 := hd b (by simp)
      have h2 : stream.getD (i % stream.length) 0 < 2 ^ 8 := getD_byte_lt stream hs _
      exact Nat.xor_lt_two_pow h1 h2
    · exact fallbackXor_lt stream hs (i + 1) rest (fun y hy => hd y (by simp [hy])) x hx

theorem fallbackXor_ne_nil (stream : List Nat) (i : Nat) (data : List Nat)
    (h : data ≠ []) : fallbackXor stream i data ≠ [] := by
  cases data with
  | nil => exact absurd rfl h
  | cons b rest => simp [fallbackXor]

theorem wordBytes_lt (w : Nat) : ∀ b ∈ wordBytes w, b < 256 := by
  intro b hb
  simp only [wordBytes, List.mem_cons, List.not_mem_nil, or_false] at hb
  rcases hb with rfl | rfl | rfl | rfl <;> omega

theorem sha256Bytes_lt (msg : List Nat) : ∀ b ∈ sha256Bytes msg, b < 256 := by
  intro b hb
  unfold sha256Bytes at hb
  simp only [List.mem_append] at hb
  rcases hb with ((((((hb | hb) | hb) | hb) | hb) | hb) | hb) | hb <;>
    exact wordBytes_lt _ _ hb

/-! ## Claim C1 -/

/-- C1: for every plaintext and valid key, decrypting the encryption
under the same key returns the original text (in particular for every
non-empty plaintext), and the empty string round-trips as the empty
string through both `encrypt_text` and `decrypt_text`; the same holds
on the XOR fallback cipher path with the exact same key. -/
theorem claim_C1_round_trip_encryption (text key : List Nat)
    (hkey : ValidFernetKey key) (htext : ∀ b ∈ text, b < 256) :
    decrypt_text (encrypt_text text key) key = text ∧
    encrypt_text [] key = CipherText.nil ∧
    decrypt_text CipherText.nil key = [] ∧
    decrypt_text_fallback (encrypt_text_fallback text key) key = text ∧
    encrypt_text_fallback [] key = [] ∧
    decrypt_text_fallback [] key = [] := by
  refine ⟨?_, rfl, rfl, ?_, rfl, rfl⟩
  · by_cases h : text = []
    · subst h
      rfl
    · unfold encrypt_text decrypt_text fernetEncrypt fernetDecrypt
      rw [if_neg h, if_neg (by simp)]
      simp
  · by_cases h : text = []
    · subst h
      rfl
    · have hstream : ∀ b ∈ fallbackKeyStream key, b < 256 := sha256Bytes_lt key
      have hxor : ∀ b ∈ fallbackXor (fallbackKeyStream key) 0 text, b < 256 :=
        fallbackXor_lt _ hstream 0 text htext
      have henc : encrypt_text_fallback text key =
          urlsafeB64Encode (fallbackXor (fallbackKeyStream key) 0 text) := by
        unfold encrypt_text_fallback fallbackFernetEncrypt
        rw [if_neg h, if_neg h]
      have hne : urlsafeB64Encode (fallbackXor (fallbackKeyStream key) 0 text) ≠ [] :=
        b64EncodeGroups_ne_nil _ _ (fallbackXor_ne_nil _ 0 text h)
      rw [henc]
      unfold decrypt_text_fallback fallbackFernetDecrypt
      rw [if_neg hne, if_neg hne]
      unfold urlsafeB64Decode urlsafeB64Encode
      rw [b64Url_roundtrip _ hxor]
      simp only [Option.map_some']
      rw [fallbackXor_involutive]

/-- Witness for C1 at a concrete plaintext and key. -/
theorem claim_C1_round_trip_encryption_witness :
    ValidFernetKey [107, 101, 121] ∧ (∀ b ∈ [104, 105, 33], b < 256) ∧
    (decrypt_text (encrypt_text [104, 105, 33] [107, 101, 121]) [107, 101, 121] = [104, 105, 33] ∧
     encrypt_text [] [107, 101, 121] = CipherText.nil ∧
     decrypt_text CipherText.nil [107, 101, 121] = [] ∧
     decrypt_text_fallback (encrypt_text_fallback [104, 105, 33] [107, 101, 121]) [107, 101, 121] =
       [104, 105, 33] ∧
     encrypt_text_fallback [] [107, 101, 121] = [] ∧
     decrypt_text_fallback [] [107, 101, 121] = []) :=
  ⟨by decide, by decide,
   claim_C1_round_trip_encryption [104, 105, 33] [107, 101, 121] (by decide) (by decide)⟩

/-! ## Claim C2 -/

/-- C2 (amended): for every non-empty plaintext and every pair of
distinct valid keys, decrypting the encryption under the other key on
the authenticated-encryption path returns the literal sentinel string
and raises nothing (the `InvalidToken` failure is absorbed inside
`decrypt_text`). -/
theorem claim_C2_wrong_key_sentinel (text keyA keyB : List Nat)
    (htext : text ≠ []) (hA : ValidFernetKey keyA) (hB : ValidFernetKey keyB)
    (hne : keyA ≠ keyB) :
    decrypt_text (encrypt_text text keyA) keyB = unableToDecrypt := by
  unfold encrypt_text decrypt_text fernetEncrypt fernetDecrypt
  rw [if_neg htext, if_neg (by simp)]
  simp [hne]

/-- Witness for C2 at a concrete plaintext and concrete distinct keys. -/
theorem claim_C2_wrong_key_sentinel_witness :
    ([115, 101, 99] : List Nat) ≠ [] ∧ ValidFernetKey [1] ∧ ValidFernetKey [2] ∧
    ([1] : List Nat) ≠ [2] ∧
    decrypt_text (encrypt_text [115, 101, 99] [1]) [2] = unableToDecrypt :=
  ⟨by decide, by decide, by decide, by decide,
   claim_C2_wrong_key_sentinel [115, 101, 99] [1] [2] (by decide) (by decide) (by decide)
     (by decide)⟩

/-- C2 counterexample: the claim quantifies over every plaintext, but
with the empty plaintext the encryption is the empty string and
decryption under a different valid key returns the empty string, not
the sentinel. -/
theorem claim_C2_empty_plaintext_counterexample :
    ValidFernetKey [1] ∧ ValidFernetKey [2] ∧ ([1] : List Nat) ≠ [2] ∧
    decrypt_text (encrypt_text [] [1]) [2] = [] ∧
    decrypt_text (encrypt_text [] [1]) [2] ≠ unableToDecrypt := by decide

/-! ## updateFirst lemmas -/

theorem find?_updateFirst (p : α → Bool) (f : α → α) :
    ∀ (l : List α) (a : α), l.find? p = some a → p (f a) = true →
      (updateFirst p f l).find? p = some (f a)
  | [], a, h, _ => by simp at h
  | x :: xs, a, h, hf => by
    by_cases hx : p x = true
    · rw [List.find?_cons_of_pos _ hx] at h
      injection h with h
      subst h
      unfold updateFirst
      rw [if_pos hx, List.find?_cons_of_pos _ hf]
    · rw [List.find?_cons_of_neg _ (by simpa using hx)] at h
      unfold updateFirst
      rw [if_neg hx, List.find?_cons_of_neg _ (by simpa using hx)]
      exact find?_updateFirst p f xs a h hf

/-! ## Claim C3 -/

/-- C3 (amended): a calendar-event create or edit submission whose
combined end is not after its combined start is rejected with an inline
error and leaves the stored state unchanged; a submission with end
strictly after start is saved with both combined timestamps exactly as
entered, where the create branch additionally requires a non-empty
stripped title (edits carry no title check). -/
theorem claim_C3_event_time_validity (st : AppState) (u newId : Nat)
    (title location notes tag color : String) (dateV : Int) (startT endT : TimeHM)
    (tasks : List EventTask) (eventId : Nat) (huser : st.user = some u) :
    (dtMinutes ⟨dateV, endT⟩ ≤ dtMinutes ⟨dateV, startT⟩ →
      (submitCreateEvent st newId title location notes tag color dateV startT endT tasks).1 ≠
        FormResult.saved ∧
      (submitCreateEvent st newId title location notes tag color dateV startT endT tasks).2 = st ∧
      submitEditEvent st eventId title location notes tag color dateV startT endT tasks =
        (FormResult.errTime, st)) ∧
    (dtMinutes ⟨dateV, startT⟩ < dtMinutes ⟨dateV, endT⟩ →
      (pyStrip title ≠ "" →
        submitCreateEvent st newId title location notes tag color dateV startT endT tasks =
          (FormResult.saved,
           { st with
             calendar_events := st.calendar_events ++
               [⟨newId, pyStrip title, pyStrip location, pyStrip notes, tag, color,
                 ⟨dateV, startT⟩, ⟨dateV, endT⟩, tasks⟩] })) ∧
      ((submitEditEvent st eventId title location notes tag color dateV startT endT tasks).1 =
        FormResult.saved ∧
       ∀ e0, st.calendar_events.find? (fun e => e.id == eventId) = some e0 →
         ((submitEditEvent st eventId title location notes tag color dateV startT endT
             tasks).2).calendar_events.find? (fun e => e.id == eventId) =
           some ⟨eventId, pyStrip title, pyStrip location, pyStrip notes, tag, color,
             ⟨dateV, startT⟩, ⟨dateV, endT⟩, tasks⟩)) := by
  constructor
  · intro hle
    refine ⟨?_, ?_, ?_⟩
    · unfold submitCreateEvent
      by_cases ht : pyStrip title = ""
      · rw [if_pos ht]
        simp
      · rw [if_neg ht]
        simp only [if_pos hle]
        simp
    · unfold submitCreateEvent
      by_cases ht : pyStrip title = ""
      · rw [if_pos ht]
      · rw [if_neg ht]
        simp only [if_pos hle]
    · unfold submitEditEvent
      simp only [if_pos hle]
  · intro hlt
    have hnle : ¬ dtMinutes ⟨dateV, endT⟩ ≤ dtMinutes ⟨dateV, startT⟩ := by omega
    constructor
    · intro ht
      unfold submitCreateEvent add_calendar_event
      rw [if_neg ht, if_neg hnle, huser]
    · constructor
      · unfold submitEditEvent
        rw [if_neg hnle]
      · intro e0 hfind
        unfold submitEditEvent update_calendar_event
        rw [if_neg hnle]
        simp only [huser]
        have hid : (e0.id == eventId) = true :=
          @List.find?_some CalendarEvent (fun e => e.id == eventId) e0 st.calendar_events hfind
        have hid2 : e0.id = eventId := by simpa using hid
        have := find?_updateFirst (fun e => e.id == eventId)
          (fun ev => { (⟨eventId, pyStrip title, pyStrip location, pyStrip notes, tag, color,
            ⟨dateV, startT⟩, ⟨dateV, endT⟩, tasks⟩ : CalendarEvent) with id := ev.id })
          st.calendar_events e0 hfind (by simpa using hid2)
        simpa [hid2] using this

/-- Witness for C3 at a concrete signed-in state and event. -/
theorem claim_C3_event_time_validity_witness :
    (AppState.mk (some 1)
        [] [⟨5, "Old", "", "", "Personal", "#AEBFA7", ⟨0, ⟨9, 0⟩⟩, ⟨0, ⟨10, 0⟩⟩, []⟩]).user =
      some 1 ∧
    ((dtMinutes ⟨0, ⟨10, 0⟩⟩ ≤ dtMinutes ⟨0, ⟨9, 0⟩⟩ →
      (submitCreateEvent
          (AppState.mk (some 1) []
            [⟨5, "Old", "", "", "Personal", "#AEBFA7", ⟨0, ⟨9, 0⟩⟩, ⟨0, ⟨10, 0⟩⟩, []⟩])
          6 "Therapy" "" "" "Care" "#AEBFA7" 0 ⟨9, 0⟩ ⟨10, 0⟩ []).1 ≠ FormResult.saved ∧
      (submitCreateEvent
          (AppState.mk (some 1) []
            [⟨5, "Old", "", "", "Personal", "#AEBFA7", ⟨0, ⟨9, 0⟩⟩, ⟨0, ⟨10, 0⟩⟩, []⟩])
          6 "Therapy" "" "" "Care" "#AEBFA7" 0 ⟨9, 0⟩ ⟨10, 0⟩ []).2 =
        AppState.mk (some 1) []
          [⟨5, "Old", "", "", "Personal", "#AEBFA7", ⟨0, ⟨9, 0⟩⟩, ⟨0, ⟨10, 0⟩⟩, []⟩] ∧
      submitEditEvent
          (AppState.mk (some 1) []
            [⟨5, "Old", "", "", "Personal", "#AEBFA7", ⟨0, ⟨9, 0⟩⟩, ⟨0, ⟨10, 0⟩⟩, []⟩])
          5 "Therapy" "" "" "Care" "#AEBFA7" 0 ⟨9, 0⟩ ⟨10, 0⟩ [] =
        (FormResult.errTime,
         AppState.mk (some 1) []
           [⟨5, "Old", "", "", "Personal", "#AEBFA7", ⟨0, ⟨9, 0⟩⟩, ⟨0, ⟨10, 0⟩⟩, []⟩])) ∧
     (dtMinutes ⟨0, ⟨9, 0⟩⟩ < dtMinutes ⟨0, ⟨10, 0⟩⟩ →
      (pyStrip "Therapy" ≠ "" →
        submitCreateEvent
            (AppState.mk (some 1) []
              [⟨5, "Old", "", "", "Personal", "#AEBFA7", ⟨0, ⟨9, 0⟩⟩, ⟨0, ⟨10, 0⟩⟩, []⟩])
            6 "Therapy" "" "" "Care" "#AEBFA7" 0 ⟨9, 0⟩ ⟨10, 0⟩ [] =
          (FormResult.saved,
           { AppState.mk (some 1) []
               [⟨5, "Old", "", "", "Personal", "#AEBFA7", ⟨0, ⟨9, 0⟩⟩, ⟨0, ⟨10, 0⟩⟩, []⟩] with
             calendar_events :=
               (AppState.mk (some 1) []
                 [⟨5, "Old", "", "", "Personal", "#AEBFA7", ⟨0, ⟨9, 0⟩⟩, ⟨0, ⟨10, 0⟩⟩,
                   []⟩]).calendar_events ++
               [⟨6, pyStrip "Therapy", pyStrip "", pyStrip "", "Care", "#AEBFA7", ⟨0, ⟨9, 0⟩⟩,
                 ⟨0, ⟨10, 0⟩⟩, []⟩] })) ∧
      ((submitEditEvent
          (AppState.mk (some 1) []
            [⟨5, "Old", "", "", "Personal", "#AEBFA7", ⟨0, ⟨9, 0⟩⟩, ⟨0, ⟨10, 0⟩⟩, []⟩])
          5 "Therapy" "" "" "Care" "#AEBFA7" 0 ⟨9, 0⟩ ⟨10, 0⟩ []).1 = FormResult.saved ∧
       ∀ e0,
         (AppState.mk (some 1) []
             [⟨5, "Old", "", "", "Personal", "#AEBFA7", ⟨0, ⟨9, 0⟩⟩, ⟨0, ⟨10, 0⟩⟩,
               []⟩]).calendar_events.find? (fun e => e.id == 5) = some e0 →
         ((submitEditEvent
             (AppState.mk (some 1) []
               [⟨5, "Old", "", "", "Personal", "#AEBFA7", ⟨0, ⟨9, 0⟩⟩, ⟨0, ⟨10, 0⟩⟩, []⟩])
             5 "Therapy" "" "" "Care" "#AEBFA7" 0 ⟨9, 0⟩ ⟨10, 0⟩
             []).2).calendar_events.find? (fun e => e.id == 5) =
           some ⟨5, pyStrip "Therapy", pyStrip "", pyStrip "", "Care", "#AEBFA7", ⟨0, ⟨9, 0⟩⟩,
             ⟨0, ⟨10, 0⟩⟩, []⟩))) :=
  ⟨rfl,
   claim_C3_event_time_validity
     (AppState.mk (some 1) []
       [⟨5, "Old", "", "", "Personal", "#AEBFA7", ⟨0, ⟨9, 0⟩⟩, ⟨0, ⟨10, 0⟩⟩, []⟩])
     1 6 "Therapy" "" "" "Care" "#AEBFA7" 0 ⟨9, 0⟩ ⟨10, 0⟩ [] 5 rfl⟩

/-- C3 counterexample: a create submission with an empty title and end
strictly after start is rejected (title error) and stores nothing,
while the claim as stated would have every end-after-start submission
saved. -/
theorem claim_C3_empty_title_counterexample :
    dtMinutes ⟨0, ⟨9, 0⟩⟩ < dtMinutes ⟨0, ⟨10, 0⟩⟩ ∧
    (submitCreateEvent ⟨some 1, [], []⟩ 1 "" "" "" "Personal" "#AEBFA7" 0 ⟨9, 0⟩ ⟨10, 0⟩ []).1 ≠
      FormResult.saved ∧
    (submitCreateEvent ⟨some 1, [], []⟩ 1 "" "" "" "Personal" "#AEBFA7" 0 ⟨9, 0⟩ ⟨10, 0⟩ []).2 =
      ⟨some 1, [], []⟩ := by decide

/-! ## Claim C4 -/

/-- C4: completing an Event Task whose `linked_task_id` references
Personal Task X through `update_event_task_completion` marks X done and
stamps its completion time; and toggling X directly to not-done through
the personal checklist clears the done flag on every Event Task linked
to X across all calendar events. -/
theorem claim_C4_task_linkage (st : AppState) (u : Nat) (evId : Nat) (tId pid : String)
    (now : Int) (E : CalendarEvent) (T : EventTask) (P : PersonalTask)
    (huser : st.user = some u)
    (hev : st.calendar_events.find? (fun e => e.id == evId) = some E)
    (htask : E.tasks.find? (fun t => t.id == tId) = some T)
    (hlink : T.linked_task_id = some pid)
    (hper : st.tasks.find? (fun t => t.id == pid) = some P) :
    ((update_event_task_completion st evId tId true now).tasks.find?
        (fun t => t.id == pid) =
      some { P with done := true, completed_at := some now }) ∧
    (∀ e ∈ (toggle_personal_task_state st pid false now).calendar_events,
      ∀ t ∈ e.tasks, t.linked_task_id = some pid → t.done = false) := by
  constructor
  · unfold update_event_task_completion
    simp only [huser, hev, htask, Option.some_bind, hlink]
    unfold toggle_task_completion
    have hp : (P.id == pid) = true :=
      @List.find?_some PersonalTask (fun t => t.id == pid) P st.tasks hper
    exact find?_updateFirst (fun t => t.id == pid)
      (fun t => { t with done := true, completed_at := some now }) st.tasks P hper hp
  · intro e he t ht hlinked
    unfold toggle_personal_task_state sync_personal_task_to_events toggle_task_completion at he
    simp only [huser] at he
    simp only [List.mem_map] at he
    obtain ⟨e0, _, rfl⟩ := he
    simp only [List.mem_map] at ht
    obtain ⟨t0, _, rfl⟩ := ht
    by_cases hl : (t0.linked_task_id == some pid) = true
    · simp [hl]
    · simp only [if_neg hl] at hlinked ⊢
      exact absurd (by simpa using hlinked) (by simpa using hl)

/-- Witness for C4 at a concrete linked state. -/
theorem claim_C4_task_linkage_witness :
    (AppState.mk (some 1) [⟨"pt1", "call", "Tiny", false, 0, none⟩]
        [⟨1, "E", "", "", "Personal", "#AEBFA7", ⟨0, ⟨9, 0⟩⟩, ⟨0, ⟨10, 0⟩⟩,
          [⟨"et1", "call", false, some "pt1"⟩]⟩]).user = some 1 ∧
    ((update_event_task_completion
        (AppState.mk (some 1) [⟨"pt1", "call", "Tiny", false, 0, none⟩]
          [⟨1, "E", "", "", "Personal", "#AEBFA7", ⟨0, ⟨9, 0⟩⟩, ⟨0, ⟨10, 0⟩⟩,
            [⟨"et1", "call", false, some "pt1"⟩]⟩])
        1 "et1" true 99).tasks.find? (fun t => t.id == "pt1") =
      some ⟨"pt1", "call", "Tiny", true, 0, some 99⟩) ∧
    (∀ e ∈ (toggle_personal_task_state
        (AppState.mk (some 1) [⟨"pt1", "call", "Tiny", false, 0, none⟩]
          [⟨1, "E", "", "", "Personal", "#AEBFA7", ⟨0, ⟨9, 0⟩⟩, ⟨0, ⟨10, 0⟩⟩,
            [⟨"et1", "call", false, some "pt1"⟩]⟩])
        "pt1" false 99).calendar_events,
      ∀ t ∈ e.tasks, t.linked_task_id = some "pt1" → t.done = false) :=
  ⟨rfl,
   claim_C4_task_linkage
     (AppState.mk (some 1) [⟨"pt1", "call", "Tiny", false, 0, none⟩]
       [⟨1, "E", "", "", "Personal", "#AEBFA7", ⟨0, ⟨9, 0⟩⟩, ⟨0, ⟨10, 0⟩⟩,
         [⟨"et1", "call", false, some "pt1"⟩]⟩])
     1 1 "et1" "pt1" 99
     ⟨1, "E", "", "", "Personal", "#AEBFA7", ⟨0, ⟨9, 0⟩⟩, ⟨0, ⟨10, 0⟩⟩,
       [⟨"et1", "call", false, some "pt1"⟩]⟩
     ⟨"et1", "call", false, some "pt1"⟩
     ⟨"pt1", "call", "Tiny", false, 0, none⟩
     rfl (by decide) (by decide) rfl (by decide)⟩

/-! ## Claim C5 -/

/-- C5 (amended): `fetch_check_ins` returns only rows of the requested
user, in ascending timestamp order, capped at 200 rows — and when the
cap bites, the rows kept are the oldest eligible ones: every returned
row has a timestamp no later than any eligible row left out. -/
theorem claim_C5_fetch_check_ins_order (table : List CheckInRow) (uid : Nat) :
    List.Sorted tsLe (fetch_check_ins table uid 200) ∧
    (fetch_check_ins table uid 200).length ≤ 200 ∧
    (∀ r ∈ fetch_check_ins table uid 200, r.user_id = uid ∧ r ∈ table) ∧
    (∀ x ∈ fetch_check_ins table uid 200, ∀ y ∈ table, y.user_id = uid →
      y ∉ fetch_check_ins table uid 200 → x.timestamp ≤ y.timestamp) := by
  have hsorted : List.Sorted tsLe
      (List.insertionSort tsLe (table.filter (fun r => r.user_id == uid))) :=
    List.sorted_insertionSort tsLe _
  have hperm : (List.insertionSort tsLe (table.filter (fun r => r.user_id == uid))).Perm
      (table.filter (fun r => r.user_id == uid)) :=
    List.perm_insertionSort tsLe _
  refine ⟨?_, ?_, ?_, ?_⟩
  · exact List.Pairwise.sublist (List.take_sublist _ _) hsorted
  · rw [fetch_check_ins, List.length_take]
    exact inf_le_left
  · intro r hr
    have hr2 : r ∈ List.insertionSort tsLe (table.filter (fun r => r.user_id == uid)) :=
      List.mem_of_mem_take hr
    have hr3 : r ∈ table.filter (fun r => r.user_id == uid) := hperm.mem_iff.mp hr2
    rw [List.mem_filter] at hr3
    exact ⟨by simpa using hr3.2, hr3.1⟩
  · intro x hx y hy hyuid hyout
    have hy2 : y ∈ table.filter (fun r => r.user_id == uid) :=
      List.mem_filter.mpr ⟨hy, by simpa using hyuid⟩
    have hy3 : y ∈ List.insertionSort tsLe (table.filter (fun r => r.user_id == uid)) :=
      hperm.mem_iff.mpr hy2
    rw [← List.take_append_drop 200
      (List.insertionSort tsLe (table.filter (fun r => r.user_id == uid)))] at hy3
    rcases List.mem_append.mp hy3 with hy4 | hy4
    · exact absurd hy4 hyout
    · have hs2 : List.Pairwise tsLe
          (List.take 200 (List.insertionSort tsLe (table.filter (fun r => r.user_id == uid))) ++
           List.drop 200 (List.insertionSort tsLe (table.filter (fun r => r.user_id == uid)))) := by
        rw [List.take_append_drop]
        exact hsorted
      exact (List.pairwise_append.mp hs2).2.2 x hx y hy4

set_option maxRecDepth 4000 in
/-- Witness for C5 at a concrete table. -/
theorem claim_C5_fetch_check_ins_order_witness :
    List.Sorted tsLe (fetch_check_ins [⟨0, 1, 9⟩, ⟨1, 1, 3⟩, ⟨2, 2, 5⟩] 1 200) ∧
    (fetch_check_ins [⟨0, 1, 9⟩, ⟨1, 1, 3⟩, ⟨2, 2, 5⟩] 1 200).length ≤ 200 ∧
    (∀ r ∈ fetch_check_ins [⟨0, 1, 9⟩, ⟨1, 1, 3⟩, ⟨2, 2, 5⟩] 1 200,
      r.user_id = 1 ∧ r ∈ [⟨0, 1, 9⟩, ⟨1, 1, 3⟩, ⟨2, 2, 5⟩]) ∧
    (∀ x ∈ fetch_check_ins [⟨0, 1, 9⟩, ⟨1, 1, 3⟩, ⟨2, 2, 5⟩] 1 200,
      ∀ y ∈ [⟨0, 1, 9⟩, ⟨1, 1, 3⟩, ⟨2, 2, 5⟩], y.user_id = 1 →
      y ∉ fetch_check_ins [⟨0, 1, 9⟩, ⟨1, 1, 3⟩, ⟨2, 2, 5⟩] 1 200 →
      x.timestamp ≤ y.timestamp) :=
  claim_C5_fetch_check_ins_order [⟨0, 1, 9⟩, ⟨1, 1, 3⟩, ⟨2, 2, 5⟩] 1

set_option maxRecDepth 100000 in
/-- C5 counterexample: on a table of 201 rows for user 1 with
timestamps 0 to 200, the 200-row cap drops the most recent eligible
row (timestamp 200) and keeps the 200 oldest ones, contradicting the
claim that the cap keeps the most recent eligible rows. -/
theorem claim_C5_cap_keeps_oldest_counterexample :
    (capTable.filter (fun r => r.user_id == 1)).any (fun r => r.timestamp == 200) = true ∧
    (fetch_check_ins capTable 1 200).any (fun r => r.timestamp == 200) = false ∧
    (fetch_check_ins capTable 1 200).any (fun r => r.timestamp == 0) = true := by decide

/-! ## Dominant-schedule lemmas -/

theorem pyMaxByKey_le (f : String → Nat) :
    ∀ (xs : List String) (b : String), ∀ x ∈ b :: xs, f x ≤ f (pyMaxByKey f xs b)
  | [], b, x, hx => by
    have hxb : x = b := by simpa using hx
    subst hxb
    simp [pyMaxByKey]
  | y :: xs, b, x, hx => by
    have hstep : ∀ z ∈ (if f b < f y then y else b) :: xs,
        f z ≤ f (pyMaxByKey f xs (if f b < f y then y else b)) :=
      pyMaxByKey_le f xs _
    have hres : pyMaxByKey f (y :: xs) b = pyMaxByKey f xs (if f b < f y then y else b) := rfl
    rw [hres]
    rcases List.mem_cons.mp hx with h1 | h2
    · rw [h1]
      by_cases hby : f b < f y
      · rw [if_pos hby] at hstep ⊢
        exact Nat.le_trans (Nat.le_of_lt hby) (hstep y (by simp))
      · rw [if_neg hby] at hstep ⊢
        exact hstep b (by simp)
    · rcases List.mem_cons.mp h2 with h3 | h4
      · rw [h3]
        by_cases hby : f b < f y
        · rw [if_pos hby] at hstep ⊢
          exact hstep y (by simp)
        · rw [if_neg hby] at hstep ⊢
          exact Nat.le_trans (Nat.le_of_not_lt hby) (hstep b (by simp))
      · exact hstep x (List.mem_cons_of_mem _ h4)

theorem pyMaxByKey_first (f : String → Nat) :
    ∀ (xs : List String) (b : String),
      (b :: xs).find? (fun x => f x == f (pyMaxByKey f xs b)) = some (pyMaxByKey f xs b)
  | [], b => by simp [pyMaxByKey]
  | y :: xs, b => by
    by_cases hby : f b < f y
    · have hres : pyMaxByKey f (y :: xs) b = pyMaxByKey f xs y := by
        show pyMaxByKey f xs (if f b < f y then y else b) = pyMaxByKey f xs y
        rw [if_pos hby]
      rw [hres]
      have hyr : f y ≤ f (pyMaxByKey f xs y) := pyMaxByKey_le f xs y y (by simp)
      have hb2 : ¬ ((fun x => f x == f (pyMaxByKey f xs y)) b = true) := by
        simp only [beq_iff_eq]
        omega
      rw [@List.find?_cons_of_neg String (fun x => f x == f (pyMaxByKey f xs y)) b
        (y :: xs) hb2]
      exact pyMaxByKey_first f xs y
    · have hres : pyMaxByKey f (y :: xs) b = pyMaxByKey f xs b := by
        show pyMaxByKey f xs (if f b < f y then y else b) = pyMaxByKey f xs b
        rw [if_neg hby]
      rw [hres]
      have ih := pyMaxByKey_first f xs b
      by_cases hbr : f b = f (pyMaxByKey f xs b)
      · have hpos : ((fun x => f x == f (pyMaxByKey f xs b)) b = true) := by
          simp [hbr]
        rw [@List.find?_cons_of_pos String (fun x => f x == f (pyMaxByKey f xs b)) b
          xs hpos] at ih
        injection ih with hb2
        rw [@List.find?_cons_of_pos String (fun x => f x == f (pyMaxByKey f xs b)) b
          (y :: xs) hpos]
        exact congrArg some hb2
      · have hble : f b ≤ f (pyMaxByKey f xs b) := pyMaxByKey_le f xs b b (by simp)
        have hxs : xs.find? (fun x => f x == f (pyMaxByKey f xs b)) =
            some (pyMaxByKey f xs b) := by
          rw [@List.find?_cons_of_neg String (fun x => f x == f (pyMaxByKey f xs b)) b
            xs (by simp only [beq_iff_eq]; exact hbr)] at ih
          exact ih
        have hbneg : ¬ ((fun x => f x == f (pyMaxByKey f xs b)) b = true) := by
          simp only [beq_iff_eq]
          exact hbr
        have hyneg : ¬ ((fun x => f x == f (pyMaxByKey f xs b)) y = true) := by
          simp only [beq_iff_eq]
          omega
        rw [@List.find?_cons_of_neg String (fun x => f x == f (pyMaxByKey f xs b)) b
          (y :: xs) hbneg,
          @List.find?_cons_of_neg String (fun x => f x == f (pyMaxByKey f xs b)) y
          xs hyneg]
        exact hxs

/-! ## One-decimal formatting precision -/

theorem fmt1Tenths_close (num den : Nat) (hden : den ≠ 0) :
    |(fmt1Tenths num den : ℚ) / 10 - (num : ℚ) / den| ≤ 1 / 20 := by
  have hd0 : 0 < den := Nat.pos_of_ne_zero hden
  have hdq : (0 : ℚ) < den := by exact_mod_cast hd0
  have key : (2 * ((fmt1Tenths num den : ℤ) * den - (num : ℤ) * 10)).natAbs ≤ den := by
    simp only [fmt1Tenths]
    have hmod : num * 10 % den < den := Nat.mod_lt _ hd0
    have hdm : den * (num * 10 / den) + num * 10 % den = num * 10 := Nat.div_add_mod _ _
    generalize hq : num * 10 / den = q at *
    generalize hr : num * 10 % den = r at *
    have hdmz : (den : ℤ) * q + r = (num : ℤ) * 10 := by exact_mod_cast hdm
    have hmodz : (r : ℤ) < den := by exact_mod_cast hmod
    split_ifs with h1 h2 h3 <;>
      · push_cast
        ring_nf at hdmz ⊢
        omega
  have heq : (fmt1Tenths num den : ℚ) / 10 - (num : ℚ) / den =
      ((2 * ((fmt1Tenths num den : ℤ) * den - (num : ℤ) * 10) : ℤ) : ℚ) / (20 * den) := by
    push_cast
    field_simp
    ring
  rw [heq, abs_div, abs_of_pos (show (0 : ℚ) < 20 * den by positivity)]
  rw [div_le_div_iff (by positivity) (by norm_num)]
  have habs : |((2 * ((fmt1Tenths num den : ℤ) * den - (num : ℤ) * 10) : ℤ) : ℚ)| =
      ((2 * ((fmt1Tenths num den : ℤ) * den - (num : ℤ) * 10)).natAbs : ℚ) := by
    rw [Int.cast_natAbs, Int.cast_abs]
  rw [habs]
  have hcast : ((2 * ((fmt1Tenths num den : ℤ) * den - (num : ℤ) * 10)).natAbs : ℚ) ≤ den := by
    exact_mod_cast key
  linarith

/-! ## Claim C6 -/

/-- C6: the weekly digest restricts check-ins and symptoms to the last
seven days inclusive (an entry exactly eight days old is excluded, one
six days old is included); with zero in-window check-ins it returns
exactly the fixed no-check-ins message; otherwise it reports the mean
mood and mean energy rounded to one decimal place (the displayed tenths
are within one twentieth of the true mean), the schedule label with the
highest in-window count with ties broken by the fixed `SCHEDULES`
order (the dominant label is the first label attaining the maximal
count), and a symptom clause determined by whether any in-window
symptom entries exist. -/
theorem claim_C6_weekly_digest (now : Int) (check_ins : List CheckIn)
    (symptoms : List SymptomEntry) :
    (∀ c ∈ check_ins, c.timestamp = now - 8 * 86400 →
      c ∉ digestRecentChecks now check_ins) ∧
    (∀ c ∈ check_ins, c.timestamp = now - 6 * 86400 →
      c ∈ digestRecentChecks now check_ins) ∧
    (digestRecentChecks now check_ins = [] →
      weekly_digest_summary now check_ins symptoms = noCheckInsMessage) ∧
    (digestRecentChecks now check_ins ≠ [] →
      weekly_digest_summary now check_ins symptoms =
        "Average mood " ++
          fmt1 (sumMood (digestRecentChecks now check_ins))
            (digestRecentChecks now check_ins).length ++
        "/10, energy " ++
          fmt1 (sumEnergy (digestRecentChecks now check_ins))
            (digestRecentChecks now check_ins).length ++
        "/10. You lived mostly in " ++
          pyLower (dominantSchedule (digestRecentChecks now check_ins)) ++
        " rhythm. " ++ digestSymptomLine (digestRecentSymptoms now symptoms) ∧
      dominantSchedule (digestRecentChecks now check_ins) ∈ SCHEDULES ∧
      (∀ l ∈ SCHEDULES,
        scheduleCount (digestRecentChecks now check_ins) l ≤
          scheduleCount (digestRecentChecks now check_ins)
            (dominantSchedule (digestRecentChecks now check_ins))) ∧
      SCHEDULES.find? (fun l =>
          scheduleCount (digestRecentChecks now check_ins) l ==
            scheduleCount (digestRecentChecks now check_ins)
              (dominantSchedule (digestRecentChecks now check_ins))) =
        some (dominantSchedule (digestRecentChecks now check_ins)) ∧
      |(fmt1Tenths (sumMood (digestRecentChecks now check_ins))
          (digestRecentChecks now check_ins).length : ℚ) / 10 -
        (sumMood (digestRecentChecks now check_ins) : ℚ) /
          (digestRecentChecks now check_ins).length| ≤ 1 / 20 ∧
      |(fmt1Tenths (sumEnergy (digestRecentChecks now check_ins))
          (digestRecentChecks now check_ins).length : ℚ) / 10 -
        (sumEnergy (digestRecentChecks now check_ins) : ℚ) /
          (digestRecentChecks now check_ins).length| ≤ 1 / 20) ∧
    (digestRecentSymptoms now symptoms = [] →
      digestSymptomLine (digestRecentSymptoms now symptoms) =
        "No symptom logs this week. Rest is welcome.") ∧
    (digestRecentSymptoms now symptoms ≠ [] →
      digestSymptomLine (digestRecentSymptoms now symptoms) =
        "You logged " ++ toString (digestRecentSymptoms now symptoms).length ++
          " symptom notes — maybe bring them to your care team.") := by
  refine ⟨?_, ?_, ?_, ?_, ?_, ?_⟩
  · intro c _ heq hmem
    rw [digestRecentChecks, List.mem_filter] at hmem
    have h2 := hmem.2
    rw [decide_eq_true_eq, heq] at h2
    rw [sevenDays] at h2
    omega
  · intro c hc heq
    rw [digestRecentChecks, List.mem_filter]
    refine ⟨hc, ?_⟩
    rw [decide_eq_true_eq, heq, sevenDays]
    omega
  · intro h
    simp [weekly_digest_summary, h]
  · intro hne
    have hlen : (digestRecentChecks now check_ins).length ≠ 0 := by
      simpa [List.length_eq_zero] using hne
    refine ⟨?_, ?_, ?_, ?_, ?_, ?_⟩
    · simp only [weekly_digest_summary]
      rw [if_neg hlen]
    · exact List.mem_of_find?_eq_some
        (pyMaxByKey_first (scheduleCount (digestRecentChecks now check_ins))
          ["Night", "Mixed"] "Day")
    · intro l hl
      exact pyMaxByKey_le (scheduleCount (digestRecentChecks now check_ins))
        ["Night", "Mixed"] "Day" l hl
    · exact pyMaxByKey_first (scheduleCount (digestRecentChecks now check_ins))
        ["Night", "Mixed"] "Day"
    · exact fmt1Tenths_close _ _ hlen
    · exact fmt1Tenths_close _ _ hlen
  · intro h
    simp [digestSymptomLine, h]
  · intro h
    have hlen : (digestRecentSymptoms now symptoms).length ≠ 0 := by
      simpa [List.length_eq_zero] using h
    simp only [digestSymptomLine]
    rw [if_pos hlen]

/-- Witness for C6 at a concrete clock and concrete entries: two
in-window check-ins (Night rhythm) and one in-window symptom entry,
with one check-in eight days old excluded. -/
theorem claim_C6_weekly_digest_witness :
    (∀ c ∈ [(⟨10 * 86400 - 8 * 86400, 2, 2, "Day"⟩ : CheckIn),
        ⟨4 * 86400, 7, 5, "Night"⟩, ⟨5 * 86400, 5, 5, "Night"⟩],
      c.timestamp = 10 * 86400 - 8 * 86400 →
      c ∉ digestRecentChecks (10 * 86400)
        [⟨10 * 86400 - 8 * 86400, 2, 2, "Day"⟩, ⟨4 * 86400, 7, 5, "Night"⟩,
         ⟨5 * 86400, 5, 5, "Night"⟩]) ∧
    (digestRecentChecks (10 * 86400)
        [⟨10 * 86400 - 8 * 86400, 2, 2, "Day"⟩, ⟨4 * 86400, 7, 5, "Night"⟩,
         ⟨5 * 86400, 5, 5, "Night"⟩] ≠ [] →
      weekly_digest_summary (10 * 86400)
        [⟨10 * 86400 - 8 * 86400, 2, 2, "Day"⟩, ⟨4 * 86400, 7, 5, "Night"⟩,
         ⟨5 * 86400, 5, 5, "Night"⟩] [⟨4 * 86400⟩] =
        "Average mood " ++
          fmt1 (sumMood (digestRecentChecks (10 * 86400)
              [⟨10 * 86400 - 8 * 86400, 2, 2, "Day"⟩, ⟨4 * 86400, 7, 5, "Night"⟩,
               ⟨5 * 86400, 5, 5, "Night"⟩]))
            (digestRecentChecks (10 * 86400)
              [⟨10 * 86400 - 8 * 86400, 2, 2, "Day"⟩, ⟨4 * 86400, 7, 5, "Night"⟩,
               ⟨5 * 86400, 5, 5, "Night"⟩]).length ++
        "/10, energy " ++
          fmt1 (sumEnergy (digestRecentChecks (10 * 86400)
              [⟨10 * 86400 - 8 * 86400, 2, 2, "Day"⟩, ⟨4 * 86400, 7, 5, "Night"⟩,
               ⟨5 * 86400, 5, 5, "Night"⟩]))
            (digestRecentChecks (10 * 86400)
              [⟨10 * 86400 - 8 * 86400, 2, 2, "Day"⟩, ⟨4 * 86400, 7, 5, "Night"⟩,
               ⟨5 * 86400, 5, 5, "Night"⟩]).length ++
        "/10. You lived mostly in " ++
          pyLower (dominantSchedule (digestRecentChecks (10 * 86400)
            [⟨10 * 86400 - 8 * 86400, 2, 2, "Day"⟩, ⟨4 * 86400, 7, 5, "Night"⟩,
             ⟨5 * 86400, 5, 5, "Night"⟩])) ++
        " rhythm. " ++
          digestSymptomLine (digestRecentSymptoms (10 * 86400) [⟨4 * 86400⟩]) ∧
      dominantSchedule (digestRecentChecks (10 * 86400)
          [⟨10 * 86400 - 8 * 86400, 2, 2, "Day"⟩, ⟨4 * 86400, 7, 5, "Night"⟩,
           ⟨5 * 86400, 5, 5, "Night"⟩]) ∈ SCHEDULES ∧
      (∀ l ∈ SCHEDULES,
        scheduleCount (digestRecentChecks (10 * 86400)
            [⟨10 * 86400 - 8 * 86400, 2, 2, "Day"⟩, ⟨4 * 86400, 7, 5, "Night"⟩,
             ⟨5 * 86400, 5, 5, "Night"⟩]) l ≤
          scheduleCount (digestRecentChecks (10 * 86400)
              [⟨10 * 86400 - 8 * 86400, 2, 2, "Day"⟩, ⟨4 * 86400, 7, 5, "Night"⟩,
               ⟨5 * 86400, 5, 5, "Night"⟩])
            (dominantSchedule (digestRecentChecks (10 * 86400)
              [⟨10 * 86400 - 8 * 86400, 2, 2, "Day"⟩, ⟨4 * 86400, 7, 5, "Night"⟩,
               ⟨5 * 86400, 5, 5, "Night"⟩]))) ∧
      SCHEDULES.find? (fun l =>
          scheduleCount (digestRecentChecks (10 * 86400)
              [⟨10 * 86400 - 8 * 86400, 2, 2, "Day"⟩, ⟨4 * 86400, 7, 5, "Night"⟩,
               ⟨5 * 86400, 5, 5, "Night"⟩]) l ==
            scheduleCount (digestRecentChecks (10 * 86400)
                [⟨10 * 86400 - 8 * 86400, 2, 2, "Day"⟩, ⟨4 * 86400, 7, 5, "Night"⟩,
                 ⟨5 * 86400, 5, 5, "Night"⟩])
              (dominantSchedule (digestRecentChecks (10 * 86400)
                [⟨10 * 86400 - 8 * 86400, 2, 2, "Day"⟩, ⟨4 * 86400, 7, 5, "Night"⟩,
                 ⟨5 * 86400, 5, 5, "Night"⟩]))) =
        some (dominantSchedule (digestRecentChecks (10 * 86400)
          [⟨10 * 86400 - 8 * 86400, 2, 2, "Day"⟩, ⟨4 * 86400, 7, 5, "Night"⟩,
           ⟨5 * 86400, 5, 5, "Night"⟩])) ∧
      |(fmt1Tenths (sumMood (digestRecentChecks (10 * 86400)
            [⟨10 * 86400 - 8 * 86400, 2, 2, "Day"⟩, ⟨4 * 86400, 7, 5, "Night"⟩,
             ⟨5 * 86400, 5, 5, "Night"⟩]))
          (digestRecentChecks (10 * 86400)
            [⟨10 * 86400 - 8 * 86400, 2, 2, "Day"⟩, ⟨4 * 86400, 7, 5, "Night"⟩,
             ⟨5 * 86400, 5, 5, "Night"⟩]).length : ℚ) / 10 -
        (sumMood (digestRecentChecks (10 * 86400)
            [⟨10 * 86400 - 8 * 86400, 2, 2, "Day"⟩, ⟨4 * 86400, 7, 5, "Night"⟩,
             ⟨5 * 86400, 5, 5, "Night"⟩]) : ℚ) /
          (digestRecentChecks (10 * 86400)
            [⟨10 * 86400 - 8 * 86400, 2, 2, "Day"⟩, ⟨4 * 86400, 7, 5, "Night"⟩,
             ⟨5 * 86400, 5, 5, "Night"⟩]).length| ≤ 1 / 20 ∧
      |(fmt1Tenths (sumEnergy (digestRecentChecks (10 * 86400)
            [⟨10 * 86400 - 8 * 86400, 2, 2, "Day"⟩, ⟨4 * 86400, 7, 5, "Night"⟩,
             ⟨5 * 86400, 5, 5, "Night"⟩]))
          (digestRecentChecks (10 * 86400)
            [⟨10 * 86400 - 8 * 86400, 2, 2, "Day"⟩, ⟨4 * 86400, 7, 5, "Night"⟩,
             ⟨5 * 86400, 5, 5, "Night"⟩]).length : ℚ) / 10 -
        (sumEnergy (digestRecentChecks (10 * 86400)
            [⟨10 * 86400 - 8 * 86400, 2, 2, "Day"⟩, ⟨4 * 86400, 7, 5, "Night"⟩,
             ⟨5 * 86400, 5, 5, "Night"⟩]) : ℚ) /
          (digestRecentChecks (10 * 86400)
            [⟨10 * 86400 - 8 * 86400, 2, 2, "Day"⟩, ⟨4 * 86400, 7, 5, "Night"⟩,
             ⟨5 * 86400, 5, 5, "Night"⟩]).length| ≤ 1 / 20) ∧
    (digestRecentChecks (10 * 86400)
        [⟨10 * 86400 - 8 * 86400, 2, 2, "Day"⟩, ⟨4 * 86400, 7, 5, "Night"⟩,
         ⟨5 * 86400, 5, 5, "Night"⟩] ≠ []) ∧
    weekly_digest_summary (10 * 86400) [] [] = noCheckInsMessage :=
  ⟨(claim_C6_weekly_digest (10 * 86400)
      [⟨10 * 86400 - 8 * 86400, 2, 2, "Day"⟩, ⟨4 * 86400, 7, 5, "Night"⟩,
       ⟨5 * 86400, 5, 5, "Night"⟩] [⟨4 * 86400⟩]).1,
   (claim_C6_weekly_digest (10 * 86400)
      [⟨10 * 86400 - 8 * 86400, 2, 2, "Day"⟩, ⟨4 * 86400, 7, 5, "Night"⟩,
       ⟨5 * 86400, 5, 5, "Night"⟩] [⟨4 * 86400⟩]).2.2.2.1,
   by decide,
   (claim_C6_weekly_digest (10 * 86400) [] []).2.2.1 rfl⟩

/-! ## Claim C7 -/

theorem fillSlots_big : ∀ (tasks : List PersonalTask) (s : TrioSlots),
    (fillSlots tasks s).big =
      s.big.elim (tasks.find? (fun t => !t.done && t.size == "Big")) some
  | [], s => by cases hb : s.big <;> simp [fillSlots, hb]
  | t :: rest, s => by
    have ih := fillSlots_big rest
    simp only [fillSlots]
    split_ifs with h1 h2 h3
    · simp only [Bool.and_eq_true, Option.isNone_iff_eq_none] at h1
      rw [ih, h1.2]
      simp only [Option.elim]
      rw [List.find?_cons_of_pos _ (by simp [h1.1.1, h1.1.2])]
    · simp only [Bool.and_eq_true, Option.isNone_iff_eq_none, beq_iff_eq] at h2
      rw [ih]
      cases hb : s.big with
      | some v => simp [Option.elim]
      | none =>
        simp only [Option.elim]
        rw [List.find?_cons_of_neg _ (by simp [h2.1.2])]
    · simp only [Bool.and_eq_true, Option.isNone_iff_eq_none, beq_iff_eq] at h3
      rw [ih]
      cases hb : s.big with
      | some v => simp [Option.elim]
      | none =>
        simp only [Option.elim]
        rw [List.find?_cons_of_neg _ (by simp [h3.1.2])]
    · rw [ih]
      cases hb : s.big with
      | some v => simp [Option.elim]
      | none =>
        simp only [Option.elim]
        rw [List.find?_cons_of_neg _ (by
          intro hc
          simp only [Bool.and_eq_true] at hc
          exact h1 (by simp [hc.1, hc.2, hb]))]

theorem fillSlots_medium : ∀ (tasks : List PersonalTask) (s : TrioSlots),
    (fillSlots tasks s).medium =
      s.medium.elim (tasks.find? (fun t => !t.done && t.size == "Medium")) some
  | [], s => by cases hb : s.medium <;> simp [fillSlots, hb]
  | t :: rest, s => by
    have ih := fillSlots_medium rest
    simp only [fillSlots]
    split_ifs with h1 h2 h3
    · simp only [Bool.and_eq_true, Option.isNone_iff_eq_none, beq_iff_eq] at h1
      rw [ih]
      cases hb : s.medium with
      | some v => simp [Option.elim]
      | none =>
        simp only [Option.elim]
        rw [List.find?_cons_of_neg _ (by simp [h1.1.2])]
    · simp only [Bool.and_eq_true, Option.isNone_iff_eq_none] at h2
      rw [ih, h2.2]
      simp only [Option.elim]
      rw [List.find?_cons_of_pos _ (by simp [h2.1.1, h2.1.2])]
    · simp only [Bool.and_eq_true, Option.isNone_iff_eq_none, beq_iff_eq] at h3
      rw [ih]
      cases hb : s.medium with
      | some v => simp [Option.elim]
      | none =>
        simp only [Option.elim]
        rw [List.find?_cons_of_neg _ (by simp [h3.1.2])]
    · rw [ih]
      cases hb : s.medium with
      | some v => simp [Option.elim]
      | none =>
        simp only [Option.elim]
        rw [List.find?_cons_of_neg _ (by
          intro hc
          simp only [Bool.and_eq_true] at hc
          exact h2 (by simp [hc.1, hc.2, hb]))]

theorem fillSlots_tiny : ∀ (tasks : List PersonalTask) (s : TrioSlots),
    (fillSlots tasks s).tiny =
      s.tiny.elim (tasks.find? (fun t => !t.done && t.size == "Tiny")) some
  | [], s => by cases hb : s.tiny <;> simp [fillSlots, hb]
  | t :: rest, s => by
    have ih := fillSlots_tiny rest
    simp only [fillSlots]
    split_ifs with h1 h2 h3
    · simp only [Bool.and_eq_true, Option.isNone_iff_eq_none, beq_iff_eq] at h1
      rw [ih]
      cases hb : s.tiny with
      | some v => simp [Option.elim]
      | none =>
        simp only [Option.elim]
        rw [List.find?_cons_of_neg _ (by simp [h1.1.2])]
    · simp only [Bool.and_eq_true, Option.isNone_iff_eq_none, beq_iff_eq] at h2
      rw [ih]
      cases hb : s.tiny with
      | some v => simp [Option.elim]
      | none =>
        simp only [Option.elim]
        rw [List.find?_cons_of_neg _ (by simp [h2.1.2])]
    · simp only [Bool.and_eq_true, Option.isNone_iff_eq_none] at h3
      rw [ih, h3.2]
      simp only [Option.elim]
      rw [List.find?_cons_of_pos _ (by simp [h3.1.1, h3.1.2])]
    · rw [ih]
      cases hb : s.tiny with
      | some v => simp [Option.elim]
      | none =>
        simp only [Option.elim]
        rw [List.find?_cons_of_neg _ (by
          intro hc
          simp only [Bool.and_eq_true] at hc
          exact h3 (by simp [hc.1, hc.2, hb]))]

/-- C7: `today_three_tasks` returns exactly three entries, one per size
in the fixed order Big, Medium, Tiny; each entry is the first not-done
task of that size in stored (creation) order when one exists and
otherwise the placeholder carrying the fixed guidance text of that
size; and a done task never appears in the trio. -/
theorem claim_C7_today_three_tasks (tasks : List PersonalTask) :
    (today_three_tasks tasks).length = 3 ∧
    today_three_tasks tasks =
      [(tasks.find? (fun t => !t.done && t.size == "Big")).elim
         (TrioEntry.placeholder "Big"
           "Choose one bold move (project chunk, call, study sprint).") TrioEntry.task,
       (tasks.find? (fun t => !t.done && t.size == "Medium")).elim
         (TrioEntry.placeholder "Medium" "Handle an admin task or prep a meal.")
         TrioEntry.task,
       (tasks.find? (fun t => !t.done && t.size == "Tiny")).elim
         (TrioEntry.placeholder "Tiny" "Send one message or tidy one corner.")
         TrioEntry.task] ∧
    (∀ e ∈ today_three_tasks tasks, ∀ t, e = TrioEntry.task t → t.done = false) := by
  have hbig := fillSlots_big tasks ⟨none, none, none⟩
  have hmed := fillSlots_medium tasks ⟨none, none, none⟩
  have htiny := fillSlots_tiny tasks ⟨none, none, none⟩
  simp only [Option.elim] at hbig hmed htiny
  have heq : today_three_tasks tasks =
      [(tasks.find? (fun t => !t.done && t.size == "Big")).elim
         (TrioEntry.placeholder "Big"
           "Choose one bold move (project chunk, call, study sprint).") TrioEntry.task,
       (tasks.find? (fun t => !t.done && t.size == "Medium")).elim
         (TrioEntry.placeholder "Medium" "Handle an admin task or prep a meal.")
         TrioEntry.task,
       (tasks.find? (fun t => !t.done && t.size == "Tiny")).elim
         (TrioEntry.placeholder "Tiny" "Send one message or tidy one corner.")
         TrioEntry.task] := by
    simp only [today_three_tasks, trioEntryFor, hbig, hmed, htiny, sizeGuidance]
    cases tasks.find? (fun t => !t.done && t.size == "Big") <;>
      cases tasks.find? (fun t => !t.done && t.size == "Medium") <;>
      cases tasks.find? (fun t => !t.done && t.size == "Tiny") <;>
      simp [Option.elim]
  refine ⟨by rw [heq]; rfl, heq, ?_⟩
  intro e he t het
  rw [heq] at he
  simp only [List.mem_cons, List.not_mem_nil, or_false] at he
  rcases he with he1 | he1 | he1 <;>
  · rw [het] at he1
    cases hf : tasks.find? _ with
    | none =>
      rw [hf] at he1
      simp [Option.elim] at he1
    | some v =>
      rw [hf] at he1
      simp only [Option.elim, TrioEntry.task.injEq] at he1
      have hp := List.find?_some hf
      subst he1
      simp only [Bool.and_eq_true, Bool.not_eq_true'] at hp
      exact hp.1

/-- Witness for C7 at the spec scenario: no Big task, one not-done
Medium task, one done and one not-done Tiny task. -/
theorem claim_C7_today_three_tasks_witness :
    (today_three_tasks
      [⟨"m1", "Call insurer", "Medium", false, 0, none⟩,
       ⟨"t1", "Sweep", "Tiny", true, 1, some 2⟩,
       ⟨"t2", "Text buddy", "Tiny", false, 2, none⟩]).length = 3 ∧
    today_three_tasks
      [⟨"m1", "Call insurer", "Medium", false, 0, none⟩,
       ⟨"t1", "Sweep", "Tiny", true, 1, some 2⟩,
       ⟨"t2", "Text buddy", "Tiny", false, 2, none⟩] =
      [(List.find? (fun t => !t.done && t.size == "Big")
          [⟨"m1", "Call insurer", "Medium", false, 0, none⟩,
           ⟨"t1", "Sweep", "Tiny", true, 1, some 2⟩,
           ⟨"t2", "Text buddy", "Tiny", false, 2, none⟩]).elim
         (TrioEntry.placeholder "Big"
           "Choose one bold move (project chunk, call, study sprint).") TrioEntry.task,
       (List.find? (fun t => !t.done && t.size == "Medium")
          [⟨"m1", "Call insurer", "Medium", false, 0, none⟩,
           ⟨"t1", "Sweep", "Tiny", true, 1, some 2⟩,
           ⟨"t2", "Text buddy", "Tiny", false, 2, none⟩]).elim
         (TrioEntry.placeholder "Medium" "Handle an admin task or prep a meal.")
         TrioEntry.task,
       (List.find? (fun t => !t.done && t.size == "Tiny")
          [⟨"m1", "Call insurer", "Medium", false, 0, none⟩,
           ⟨"t1", "Sweep", "Tiny", true, 1, some 2⟩,
           ⟨"t2", "Text buddy", "Tiny", false, 2, none⟩]).elim
         (TrioEntry.placeholder "Tiny" "Send one message or tidy one corner.")
         TrioEntry.task] ∧
    (∀ e ∈ today_three_tasks
      [⟨"m1", "Call insurer", "Medium", false, 0, none⟩,
       ⟨"t1", "Sweep", "Tiny", true, 1, some 2⟩,
       ⟨"t2", "Text buddy", "Tiny", false, 2, none⟩],
      ∀ t, e = TrioEntry.task t → t.done = false) :=
  claim_C7_today_three_tasks
    [⟨"m1", "Call insurer", "Medium", false, 0, none⟩,
     ⟨"t1", "Sweep", "Tiny", true, 1, some 2⟩,
     ⟨"t2", "Text buddy", "Tiny", false, 2, none⟩]

/-! ## Claim C8 -/

/-- C8 (amended): `add_personal_task` stores the size it is given
verbatim; the event-checklist push-to-personal action always creates
its task with size Tiny, which belongs to the Tiny/Medium/Big data
model vocabulary; but every option offered by the Home planner task
cloud selectbox (Small, Medium-with-trailing-space, Large) lies outside
that vocabulary, so the tasks created by that flow violate the size
invariant. -/
theorem claim_C8_task_size_invariant (st : AppState) (u : Nat) (huser : st.user = some u)
    (title size newId label : String) (now : Int) (eventId : Nat) (taskId : String) :
    ((add_personal_task st title size newId now).1.tasks =
      st.tasks ++ [⟨newId, title, size, false, now, none⟩]) ∧
    ("Tiny" ∈ allowedTaskSizes ∧
      (pushEventTaskToPersonal st eventId taskId label newId now).tasks =
        st.tasks ++ [⟨newId, label, "Tiny", false, now, none⟩]) ∧
    (∀ s ∈ homeCloudSizeOptions, s ∉ allowedTaskSizes) ∧
    (pyStrip title ≠ "" →
      (submitCloudTask st title size newId now).tasks =
        st.tasks ++ [⟨newId, pyStrip title, size, false, now, none⟩]) := by
  refine ⟨?_, ⟨by decide, ?_⟩, by decide, ?_⟩
  · unfold add_personal_task
    rw [huser]
  · unfold pushEventTaskToPersonal add_personal_task
    rw [huser]
    by_cases hid : newId = ""
    · simp only [hid]
      rw [if_neg (by simp)]
    · rw [if_pos (by simpa using hid)]
      unfold link_event_task_to_personal
      simp
  · intro ht
    unfold submitCloudTask add_personal_task
    rw [if_pos ht, huser]

/-- Witness for C8 at a concrete signed-in state. -/
theorem claim_C8_task_size_invariant_witness :
    (AppState.mk (some 1) [] []).user = some 1 ∧
    (((add_personal_task (AppState.mk (some 1) [] []) "water plants" "Big" "id1" 0).1.tasks =
      [] ++ [⟨"id1", "water plants", "Big", false, 0, none⟩]) ∧
     ("Tiny" ∈ allowedTaskSizes ∧
       (pushEventTaskToPersonal (AppState.mk (some 1) [] []) 3 "et1" "pack bag" "id1" 0).tasks =
         [] ++ [⟨"id1", "pack bag", "Tiny", false, 0, none⟩]) ∧
     (∀ s ∈ homeCloudSizeOptions, s ∉ allowedTaskSizes) ∧
     (pyStrip "water plants" ≠ "" →
       (submitCloudTask (AppState.mk (some 1) [] []) "water plants" "Big" "id1" 0).tasks =
         [] ++ [⟨"id1", pyStrip "water plants", "Big", false, 0, none⟩])) :=
  ⟨rfl,
   claim_C8_task_size_invariant (AppState.mk (some 1) [] []) 1 rfl "water plants" "Big"
     "id1" "pack bag" 0 3 "et1"⟩

/-- C8 counterexample: the Home planner task cloud defaults to the
selectbox option Medium-with-trailing-space; saving a task through it
creates a Personal Task whose size is that exact string, which is not
one of Tiny, Medium, Big — the claimed data-model invariant fails on
this in-scope flow. -/
theorem claim_C8_home_planner_counterexample :
    "Medium " ∈ homeCloudSizeOptions ∧
    (submitCloudTask (AppState.mk (some 1) [] []) "email Dr Kim" "Medium " "id1" 0).tasks =
      [⟨"id1", "email Dr Kim", "Medium ", false, 0, none⟩] ∧
    ∀ t ∈ (submitCloudTask (AppState.mk (some 1) [] []) "email Dr Kim" "Medium " "id1" 0).tasks,
      t.size ∉ allowedTaskSizes := by decide

/-! ## Claim C9 -/

theorem minutes_to_from_time_value (tm : Nat) (h : tm ≤ 1439) :
    minutes_from_time_value (minutes_to_time_value tm) = tm := by
  simp only [minutes_to_time_value, minutes_from_time_value]
  omega

/-- C9 (amended): applying a timeline drag whose selected range spans
fewer than 15 minutes persists a new start at the first handle and a
new end clamped to the handle plus 15 minutes; for every selectable
start position up to 1410 the persisted end is exactly start plus 15
minutes, while at the one remaining selectable position (1425, the
slider maximum) `minutes_to_time_value` caps the end at 23:59, which is
start plus 14 minutes. -/
theorem claim_C9_drag_minimum_duration (st : AppState) (u : Nat) (E : CalendarEvent)
    (dragDate : Int) (r0 r1 : Nat) (huser : st.user = some u)
    (hfind : st.calendar_events.find? (fun e => e.id == E.id) = some E)
    (hgrid : r0 % 15 = 0) (hmax : r0 ≤ 1425) (hle : r0 ≤ r1) (hspan : r1 < r0 + 15) :
    (applyDragUpdate st E dragDate r0 r1).calendar_events.find? (fun e => e.id == E.id) =
      some { E with
        startAt := ⟨dragDate, minutes_to_time_value r0⟩,
        endAt := ⟨dragDate, minutes_to_time_value (r0 + 15)⟩ } ∧
    (r0 ≤ 1410 →
      dtMinutes (⟨dragDate, minutes_to_time_value (r0 + 15)⟩ : DateTimeDT) =
        dtMinutes (⟨dragDate, minutes_to_time_value r0⟩ : DateTimeDT) + 15) ∧
    (1410 < r0 →
      r0 = 1425 ∧
      minutes_to_time_value (r0 + 15) = ⟨23, 59⟩ ∧
      dtMinutes (⟨dragDate, minutes_to_time_value (r0 + 15)⟩ : DateTimeDT) =
        dtMinutes (⟨dragDate, minutes_to_time_value r0⟩ : DateTimeDT) + 14) := by
  have hmaxeq : max (r0 + 15) r1 = r0 + 15 := Nat.max_eq_left (by omega)
  have hstartv : minutes_from_time_value (minutes_to_time_value r0) = r0 :=
    minutes_to_from_time_value r0 (by omega)
  refine ⟨?_, ?_, ?_⟩
  · unfold applyDragUpdate
    rw [hmaxeq]
    have hlt : ¬ dtMinutes ⟨dragDate, minutes_to_time_value (r0 + 15)⟩ ≤
        dtMinutes ⟨dragDate, minutes_to_time_value r0⟩ := by
      simp only [dtMinutes, minutes_to_time_value]
      omega
    rw [if_neg hlt]
    unfold update_calendar_event
    rw [huser]
    have hp : (E.id == E.id) = true := by simp
    have := find?_updateFirst (fun e => e.id == E.id)
      (fun ev =>
        { ({ E with
            startAt := (⟨dragDate, minutes_to_time_value r0⟩ : DateTimeDT),
            endAt := (⟨dragDate, minutes_to_time_value (r0 + 15)⟩ : DateTimeDT) } :
            CalendarEvent) with id := ev.id })
      st.calendar_events E hfind (by simpa using rfl)
    simpa using this
  · intro h1410
    simp only [dtMinutes, minutes_to_time_value]
    omega
  · intro h1410
    refine ⟨by omega, ?_, ?_⟩
    · simp only [minutes_to_time_value]
      have : r0 = 1425 := by omega
      subst this
      rfl
    · simp only [dtMinutes, minutes_to_time_value]
      omega

/-- Witness for C9 at a concrete event and the slider position 300
(05:00), with a zero-width selected range. -/
theorem claim_C9_drag_minimum_duration_witness :
    ((applyDragUpdate
        (AppState.mk (some 1) []
          [⟨1, "E", "", "", "Personal", "#AEBFA7", ⟨0, ⟨9, 0⟩⟩, ⟨0, ⟨10, 0⟩⟩, []⟩])
        ⟨1, "E", "", "", "Personal", "#AEBFA7", ⟨0, ⟨9, 0⟩⟩, ⟨0, ⟨10, 0⟩⟩, []⟩
        0 300 300).calendar_events.find? (fun e => e.id == 1) =
      some { (⟨1, "E", "", "", "Personal", "#AEBFA7", ⟨0, ⟨9, 0⟩⟩, ⟨0, ⟨10, 0⟩⟩, []⟩ :
          CalendarEvent) with
        startAt := ⟨0, minutes_to_time_value 300⟩,
        endAt := ⟨0, minutes_to_time_value (300 + 15)⟩ }) ∧
    (300 ≤ 1410 →
      dtMinutes (⟨0, minutes_to_time_value (300 + 15)⟩ : DateTimeDT) =
        dtMinutes (⟨0, minutes_to_time_value 300⟩ : DateTimeDT) + 15) ∧
    (1410 < 300 →
      300 = 1425 ∧
      minutes_to_time_value (300 + 15) = ⟨23, 59⟩ ∧
      dtMinutes (⟨0, minutes_to_time_value (300 + 15)⟩ : DateTimeDT) =
        dtMinutes (⟨0, minutes_to_time_value 300⟩ : DateTimeDT) + 14) :=
  claim_C9_drag_minimum_duration
    (AppState.mk (some 1) []
      [⟨1, "E", "", "", "Personal", "#AEBFA7", ⟨0, ⟨9, 0⟩⟩, ⟨0, ⟨10, 0⟩⟩, []⟩])
    1 ⟨1, "E", "", "", "Personal", "#AEBFA7", ⟨0, ⟨9, 0⟩⟩, ⟨0, ⟨10, 0⟩⟩, []⟩
    0 300 300 rfl (by decide) (by decide) (by decide) (by decide) (by decide)

/-- C9 counterexample: at the maximum selectable start position 1425
with a zero-width range, the persisted end time is 23:59 — fourteen
minutes after the selected start, not the claimed start plus 15. -/
theorem claim_C9_clamp_at_end_of_day_counterexample :
    (applyDragUpdate
        (AppState.mk (some 1) []
          [⟨1, "E", "", "", "Personal", "#AEBFA7", ⟨0, ⟨9, 0⟩⟩, ⟨0, ⟨10, 0⟩⟩, []⟩])
        ⟨1, "E", "", "", "Personal", "#AEBFA7", ⟨0, ⟨9, 0⟩⟩, ⟨0, ⟨10, 0⟩⟩, []⟩
        0 1425 1425).calendar_events =
      [⟨1, "E", "", "", "Personal", "#AEBFA7", ⟨0, ⟨23, 45⟩⟩, ⟨0, ⟨23, 59⟩⟩, []⟩] ∧
    dtMinutes (⟨0, ⟨23, 59⟩⟩ : DateTimeDT) ≠
      dtMinutes (⟨0, ⟨23, 45⟩⟩ : DateTimeDT) + 15 ∧
    dtMinutes (⟨0, ⟨23, 59⟩⟩ : DateTimeDT) =
      dtMinutes (⟨0, ⟨23, 45⟩⟩ : DateTimeDT) + 14 := by decide
